import Mathlib

/-!
Verification of the FOR ME category scoring engine.

This file is a shallow embedding, in Lean 4, of the deterministic scoring core
of the repository:

* `src/agents/food_compatibility_agent.py`   (`calculate_food_scores`)
* `src/agents/cosmetics_compatibility_agent.py` (`calculate_cosmetics_scores`)
* `src/agents/household_compatibility_agent.py` (`calculate_household_scores`)
* `src/memory.py`                             (`apply_repeated_reactions_to_scores`)
* `src/tools/category_dictionaries.py`        (static keyword tables)
* `src/agents/scoring_weights.py`             (weight constants)

Modelling conventions:

* Python strings are Lean `String`; `a in b` (substring test) is `pyIn a b`;
  `.lower()` is `pyLower` (character-wise ASCII lowering), `.strip()` is
  `pyStrip` (drop leading/trailing whitespace).  `pyLower` lowers ASCII only;
  every string the scoring logic lowercases and then compares is either
  already lowercase in the source tables or ASCII in the claims, so this is
  faithful where it matters.
* Python `int` scores are Lean `Int`; all clamps (`min`, `max(0, ...)`) are
  carried over literally.
* A Python avoid-list entry is either a bare string or a dict
  `{"ingredient": ..., "type": ...}`; `AvoidItem` is that union, with a dict's
  missing `"ingredient"` key modelled as the empty string (Python
  `item.get("ingredient", "")`).
* Python dicts preserve insertion order, so the static keyword dictionaries
  are association lists `List (String × List String)` and the normalized
  strict-avoid dict is an insertion-ordered deduplicated key list.
  (The cosmetics scorer iterates a Python `set`, whose order is unspecified;
  the order only affects which matching key is reported in a message string,
  never the scores, flags or caps, so insertion order is used.)
* The final weighted sum `int(w1*safety + w2*sensitivity + w3*match)` is
  computed in Python in IEEE floats; it is modelled by the exact rational
  floor `(10*w1*s + 10*w2*se + 10*w3*m) / 10` on nonnegative integers.  No
  claim in this development depends on the value of the weighted sum, only on
  the subsequent `min` against `final_cap`.
-/

namespace ForMe

/-- Python `needle in hay`: contiguous substring containment (true for `""`). -/
def pyIn (needle hay : String) : Bool :=
  decide (needle.data <:+: hay.data)

/-- Bidirectional substring containment, the shared matching utility:
`key in ingredient or ingredient in key`. -/
def pyMatch (a b : String) : Bool :=
  pyIn a b || pyIn b a

/-- Python `str.lower()`: character-wise (ASCII) lowering. -/
def pyLower (s : String) : String :=
  ⟨s.data.map Char.toLower⟩

/-- Python `str.strip()`: drop leading and trailing whitespace. -/
def pyStrip (s : String) : String :=
  ⟨((s.data.dropWhile Char.isWhitespace).reverse.dropWhile Char.isWhitespace).reverse⟩

/-- Python `.lower().strip()`. -/
def lowerStrip (s : String) : String :=
  pyStrip (pyLower s)

/-- An entry of a profile avoidance list: either a bare string (legacy) or a
dict `{"ingredient": ..., "type": ...}`.  A dict without an `"ingredient"`
key is `ofDict "" ty` (Python `item.get("ingredient", "")`). -/
inductive AvoidItem where
  | ofString (s : String)
  | ofDict (ingredient : String) (ty : String)
deriving DecidableEq, Repr

/-- An entry of `repeated_negative_reactions`.  `none` fields model missing
dict keys: the source reads `entry.get("ingredient", "")` and
`entry.get("frequency", "always")`. -/
structure ReactionEntry where
  ingredient : Option String := none
  frequency : Option String := none
deriving DecidableEq, Repr

/-- The slice of the user profile read by the three category scorers and the
reaction-memory adjuster.  Missing fields default to empty (Python
`profile.get(field, [])`). -/
structure UserProfile where
  food_strict_avoid : List AvoidItem := []
  food_prefer_avoid : List AvoidItem := []
  food_ok_if_small : List AvoidItem := []
  strict_avoid : List AvoidItem := []
  cosmetics_sensitivities : List String := []
  cosmetics_preferences : List String := []
  hair_type : String := ""
  hair_goals : List String := []
  skin_type : String := ""
  skin_goals : List String := []
  household_strict_avoid : List AvoidItem := []
  household_sensitivities : List String := []
  repeated_negative_reactions : List ReactionEntry := []
deriving DecidableEq, Repr

/-- `ingredient_risks`: mapping ingredient → risk tags, modelled as an
association list. -/
def RisksMap := List (String × List String)

/-- Python `ingredient_risks.get(ingredient, [])`. -/
def risksGet (m : RisksMap) (k : String) : List String :=
  match List.find? (fun p => p.1 == k) m with
  | some p => p.2
  | none => []

/-- A `from_profile_match` finding:
`{"ingredient": ..., "type": ..., "severity": ..., "category": ...}`. -/
structure ProfileFinding where
  ingredient : String
  ftype : String
  severity : String
  category : String
deriving DecidableEq, Repr

/-- A `generic_risks` finding:
`{"ingredient": ..., "reason": ..., "type": ..., "category": ...}`. -/
structure GenericRisk where
  ingredient : String
  reason : String
  rtype : String
  category : String
deriving DecidableEq, Repr

/-! ## Reaction Memory Adjuster (`src/memory.py`, `apply_repeated_reactions_to_scores`) -/

def severe_triggers : List String :=
  ["always", "every time", "consistently", "constant", "regularly"]

def moderate_triggers : List String :=
  ["often", "frequently", "usually", "many times"]

def mild_triggers : List String :=
  ["sometimes", "occasionally", "rarely"]

/-- One `(ingredient, reaction entry)` step of the reaction-memory loop body.
`sc` is the running `(safety_score, final_cap)` pair. -/
def reactionStep (e : ReactionEntry) (ingredient_lower : String) (sc : Int × Int) :
    Int × Int :=
  let reaction_ingredient := pyLower (e.ingredient.getD "")
  if pyIn reaction_ingredient ingredient_lower || pyIn ingredient_lower reaction_ingredient then
    let freq := pyStrip (pyLower (e.frequency.getD "always"))
    if severe_triggers.contains freq then
      (0, min sc.2 10)
    else if moderate_triggers.contains freq then
      (min sc.1 20, min sc.2 20)
    else if mild_triggers.contains freq then
      (max 0 (sc.1 - 30), min sc.2 50)
    else
      (min sc.1 20, min sc.2 20)
  else
    sc

/-- `apply_repeated_reactions_to_scores(profile, ingredients_list, safety, cap)`:
outer loop over product ingredients, inner loop over the profile's
`repeated_negative_reactions`, each matching pair applying its frequency
bucket's penalty to the running `(safety_score, final_cap)`. -/
def apply_repeated_reactions_to_scores (profile : UserProfile)
    (ingredients_list : List String)
    (current_safety_score current_final_cap : Int) : Int × Int :=
  ingredients_list.foldl
    (fun sc ingredient =>
      profile.repeated_negative_reactions.foldl
        (fun sc2 e => reactionStep e (pyLower ingredient) sc2) sc)
    (current_safety_score, current_final_cap)

/-! ## Category dictionaries (`src/tools/category_dictionaries.py`)

Only the tables actually read by the three `calculate_*_scores` functions are
embedded (`FOOD_AVOID` and `COSMETICS_HAIR_SPECIFIC` are used solely to build
LLM context and never by the scoring logic). -/

def FOOD_WARN : List (String × List String) :=
  [("high_salt", ["high_salt", "sodium"]),
   ("высокая соль", ["high_salt", "sodium"]),
   ("salt", ["high_salt", "sodium"]),
   ("соль", ["high_salt", "sodium"]),
   ("sodium", ["high_salt", "sodium"]),
   ("sugar", ["high_sugar"]),
   ("сахар", ["high_sugar"]),
   ("sucrose", ["high_sugar"]),
   ("fructose", ["high_sugar"]),
   ("msg", ["flavor_enhancer", "msg"]),
   ("глутамат", ["flavor_enhancer", "msg"]),
   ("monosodium glutamate", ["flavor_enhancer", "msg"]),
   ("sweeteners", ["artificial_sweetener"]),
   ("подсластители", ["artificial_sweetener"]),
   ("aspartame", ["artificial_sweetener"]),
   ("saccharin", ["artificial_sweetener"])]

def FOOD_POSITIVE : List (String × List String) :=
  [("fiber", ["fiber", "healthy"]),
   ("клетчатка", ["fiber", "healthy"]),
   ("protein", ["protein", "healthy"]),
   ("белок", ["protein", "healthy"]),
   ("vitamins", ["vitamins", "healthy"]),
   ("витамины", ["vitamins", "healthy"]),
   ("omega-3", ["omega3", "healthy"]),
   ("антиоксиданты", ["antioxidants", "healthy"]),
   ("antioxidants", ["antioxidants", "healthy"])]

def COSMETICS_NEGATIVE : List (String × List String) :=
  [("sodium lauryl sulfate", ["irritant", "harsh_surfactant"]),
   ("sodium laureth sulfate", ["irritant", "harsh_surfactant"]),
   ("sls", ["irritant", "harsh_surfactant"]),
   ("sles", ["irritant", "harsh_surfactant"]),
   ("fragrance", ["irritant", "fragrance"]),
   ("parfum", ["irritant", "fragrance"]),
   ("отдушка", ["irritant", "fragrance"]),
   ("alcohol", ["irritant", "drying_alcohol"]),
   ("alcohol denat", ["irritant", "drying_alcohol"]),
   ("спирт", ["irritant", "drying_alcohol"]),
   ("phenoxyethanol", ["irritant", "preservative"]),
   ("sodium chloride", ["irritant", "drying"]),
   ("соль", ["irritant", "drying"]),
   ("sulfates", ["irritant", "harsh_surfactant"]),
   ("сульфаты", ["irritant", "harsh_surfactant"])]

def COSMETICS_POSITIVE : List (String × List String) :=
  [("glycerin", ["hydrating", "moisturizing"]),
   ("глицерин", ["hydrating", "moisturizing"]),
   ("hyaluronic acid", ["hydrating", "moisturizing"]),
   ("гиалуроновая кислота", ["hydrating", "moisturizing"]),
   ("ceramides", ["moisturizing", "barrier"]),
   ("церамиды", ["moisturizing", "barrier"]),
   ("dimethicone", ["silicone", "anti_frizz"]),
   ("amodimethicone", ["silicone", "anti_frizz"]),
   ("silicone", ["silicone", "anti_frizz"]),
   ("силикон", ["silicone", "anti_frizz"]),
   ("niacinamide", ["nourishing", "vitamin"]),
   ("ниацинамид", ["nourishing", "vitamin"]),
   ("panthenol", ["moisturizing", "soothing"]),
   ("пантенол", ["moisturizing", "soothing"]),
   ("squalane", ["moisturizing", "emollient"]),
   ("сквалан", ["moisturizing", "emollient"]),
   ("argan oil", ["moisturizing", "hair_care"]),
   ("масло арганы", ["moisturizing", "hair_care"]),
   ("coconut oil", ["moisturizing", "hair_care"]),
   ("кокосовое масло", ["moisturizing", "hair_care"])]

def HOUSEHOLD_RISK : List (String × List String) :=
  [("bleach", ["toxic", "bleach"]),
   ("отбеливатель", ["toxic", "bleach"]),
   ("хлор", ["toxic", "bleach"]),
   ("chlorine", ["toxic", "bleach"]),
   ("ammonia", ["toxic", "ammonia"]),
   ("аммиак", ["toxic", "ammonia"]),
   ("sodium hypochlorite", ["toxic", "bleach"]),
   ("гипохлорит натрия", ["toxic", "bleach"]),
   ("formaldehyde", ["toxic", "formaldehyde"]),
   ("формальдегид", ["toxic", "formaldehyde"]),
   ("triclosan", ["toxic", "antibacterial"]),
   ("триклозан", ["toxic", "antibacterial"])]

def HOUSEHOLD_WARN : List (String × List String) :=
  [("fragrance", ["irritant", "fragrance"]),
   ("parfum", ["irritant", "fragrance"]),
   ("отдушка", ["irritant", "fragrance"]),
   ("sodium lauryl sulfate", ["irritant", "surfactant"]),
   ("sodium laureth sulfate", ["irritant", "surfactant"]),
   ("sls", ["irritant", "surfactant"]),
   ("sles", ["irritant", "surfactant"]),
   ("phosphates", ["environmental", "phosphates"]),
   ("фосфаты", ["environmental", "phosphates"]),
   ("synthetic dyes", ["irritant", "dyes"]),
   ("синтетические красители", ["irritant", "dyes"])]

def HOUSEHOLD_POSITIVE : List (String × List String) :=
  [("plant-based", ["eco_friendly", "natural"]),
   ("на растительной основе", ["eco_friendly", "natural"]),
   ("biodegradable", ["eco_friendly", "biodegradable"]),
   ("биоразлагаемый", ["eco_friendly", "biodegradable"]),
   ("enzymes", ["natural", "effective"]),
   ("ферменты", ["natural", "effective"]),
   ("citric acid", ["natural", "cleaning"]),
   ("лимонная кислота", ["natural", "cleaning"]),
   ("vinegar", ["natural", "cleaning"]),
   ("уксус", ["natural", "cleaning"])]

/-! ## Scoring weights (`src/agents/scoring_weights.py`), scaled by 10 so the
weighted sum is integer arithmetic: food 0.5/0.3/0.2, cosmetics 0.3/0.3/0.4,
household 0.4/0.3/0.3. -/

/-- `int(0.5*safety + 0.3*sensitivity + 0.2*match)` (exact rational floor). -/
def foodWeighted (s se m : Int) : Int := (5 * s + 3 * se + 2 * m) / 10

/-- `int(0.3*safety + 0.3*sensitivity + 0.4*match)` (exact rational floor). -/
def cosmeticsWeighted (s se m : Int) : Int := (3 * s + 3 * se + 4 * m) / 10

/-- `int(0.4*safety + 0.3*sensitivity + 0.3*match)` (exact rational floor). -/
def householdWeighted (s se m : Int) : Int := (4 * s + 3 * se + 3 * m) / 10

/-! ## Shared traces detection -/

/-- The fixed traces marker set of the food and cosmetics scorers. -/
def tracesKeywords : List String :=
  ["traces", "may contain", "produced", "production", "manufactured"]

/-- `is_traces`: the (already lowercased) ingredient contains a traces marker. -/
def isTraces (ingredient_lower : String) : Bool :=
  tracesKeywords.any (fun keyword => pyIn keyword ingredient_lower)

/-! ## Strict-avoid normalization -/

/-- Normalized key of an avoid-list item under the food/cosmetics rules:
a dict's `"ingredient"` value lowercased and stripped, skipped (`none`) when
empty (`if ing:`); a bare string lowercased and stripped, never skipped. -/
def foodItemKey : AvoidItem → Option String
  | .ofDict ing _ => let k := lowerStrip ing; if k = "" then none else some k
  | .ofString s => some (lowerStrip s)

/-- Key list of the food scorer's `strict_avoid_normalized` dict (and the
cosmetics scorer's `strict_avoid_set`): insertion-ordered, deduplicated. -/
def strictAvoidKeys (items : List AvoidItem) : List String :=
  items.foldl
    (fun acc item =>
      match foodItemKey item with
      | none => acc
      | some k => if acc.contains k then acc else acc ++ [k])
    []

/-- The food scorer's `prefer_avoid_list`: same per-item normalization, but a
plain list (no deduplication). -/
def preferAvoidList (items : List AvoidItem) : List String :=
  items.foldl
    (fun acc item =>
      match foodItemKey item with
      | none => acc
      | some k => acc ++ [k])
    []

/-- Normalized key of an avoid-list item under the household rules: the
lowercased, stripped ingredient string.  Unlike `foodItemKey`, empty entries
are NOT skipped — the empty string is a possible key. -/
def householdItemKey : AvoidItem → String
  | .ofDict ing _ => lowerStrip ing
  | .ofString s => lowerStrip s

/-- Key list of the household scorer's `strict_avoid_normalized` /
`strict_avoid_set`: insertion-ordered, deduplicated, empty keys kept. -/
def householdStrictKeys (items : List AvoidItem) : List String :=
  items.foldl
    (fun acc item =>
      let k := householdItemKey item
      if acc.contains k then acc else acc ++ [k])
    []

/-! ## Food scorer (`src/agents/food_compatibility_agent.py`) -/

/-- Risk tags the food scorer treats as sensitivity risks. -/
def risk_sensitivity_tags : List String :=
  ["high_salt", "high_sugar", "flavor_enhancer", "sweetener", "msg"]

/-- Mutable locals of `calculate_food_scores` during the per-ingredient loop. -/
structure FoodState where
  safety_score : Int := 100
  sensitivity_score : Int := 100
  match_score : Int := 50
  final_cap : Int := 100
  has_strict_allergen_explicit : Bool := false
  has_strict_allergen_traces : Bool := false
  from_profile_match : List ProfileFinding := []
  generic_risks : List GenericRisk := []
  safety_issues : List String := []
  sensitivity_issues : List String := []
deriving DecidableEq, Repr

/-- Effect of a food strict-avoid hit: explicit branch if no traces marker,
traces branch otherwise. -/
def foodStrictApply (strict_ing ingredient ingredient_lower : String)
    (st : FoodState) : FoodState :=
  if isTraces ingredient_lower = false then
    { st with
      has_strict_allergen_explicit := true
      safety_score := 0
      final_cap := min st.final_cap 15
      safety_issues := st.safety_issues ++
        [ingredient ++ ": contains component from strict_avoid list (" ++ strict_ing ++ ")"]
      from_profile_match := st.from_profile_match ++
        [⟨ingredient, "strict_allergen_explicit", "critical", "food"⟩] }
  else
    { st with
      has_strict_allergen_traces := true
      safety_score := min st.safety_score 20
      final_cap := min st.final_cap 40
      safety_issues := st.safety_issues ++
        [ingredient ++ ": may contain traces of component from strict_avoid (" ++ strict_ing ++ ")"]
      from_profile_match := st.from_profile_match ++
        [⟨ingredient, "strict_allergen_traces", "high", "food"⟩] }

/-- The first-match-wins cascade guarded by `matched`: strict avoid (with the
`if strict_ing and ...` non-empty guard), then prefer avoid (same guard), then
the `FOOD_WARN` dictionary. -/
def foodCascade (strict_keys prefer_keys : List String)
    (ingredient ingredient_lower : String) (st : FoodState) : FoodState :=
  match List.find? (fun k => (k != "") && pyMatch k ingredient_lower) strict_keys with
  | some k => foodStrictApply k ingredient ingredient_lower st
  | none =>
    match List.find? (fun p => (p != "") && pyMatch p ingredient_lower) prefer_keys with
    | some p =>
      { st with
        sensitivity_score := max 0 (st.sensitivity_score - 15)
        sensitivity_issues := st.sensitivity_issues ++
          [ingredient ++ ": you prefer to avoid components of type (" ++ p ++ ")"]
        from_profile_match := st.from_profile_match ++
          [⟨ingredient, "prefer_avoid", "medium", "food"⟩] }
    | none =>
      match List.find? (fun w => pyIn (pyLower w.1) ingredient_lower) FOOD_WARN with
      | some w =>
        { st with
          sensitivity_score := max 0 (st.sensitivity_score - 10)
          sensitivity_issues := st.sensitivity_issues ++
            [ingredient ++ ": contains component from warning zone (" ++ w.1 ++ ")"]
          generic_risks := st.generic_risks ++
            [⟨ingredient, "contains " ++ w.1, "warning", "food"⟩] }
      | none => st

/-- The risk-tag rule.  In the source this loop is NOT guarded by `matched`:
it runs for every ingredient, after the cascade, stopping at the first
qualifying tag. -/
def foodTagRule (tags : List String) (ingredient : String) (st : FoodState) :
    FoodState :=
  match List.find? (fun tag => risk_sensitivity_tags.contains (pyLower tag)) tags with
  | some tag =>
    { st with
      sensitivity_score := max 0 (st.sensitivity_score - 10)
      sensitivity_issues := st.sensitivity_issues ++
        [ingredient ++ ": contains risk factor (" ++ pyLower tag ++ ")"]
      generic_risks := st.generic_risks ++
        [⟨ingredient, "risk tag: " ++ pyLower tag, "risk_tag", "food"⟩] }
  | none => st

/-- The `FOOD_POSITIVE` rule (independent of `matched`). -/
def foodPositiveRule (ingredient_lower : String) (st : FoodState) : FoodState :=
  if FOOD_POSITIVE.any (fun p => pyIn (pyLower p.1) ingredient_lower) then
    { st with match_score := min 100 (st.match_score + 10) }
  else st

/-- One iteration of the food per-ingredient loop. -/
def foodStep (strict_keys prefer_keys : List String) (ingredient_risks : RisksMap)
    (st : FoodState) (ingredient : String) : FoodState :=
  let ingredient_lower := pyLower ingredient
  let tags := risksGet ingredient_risks ingredient
  foodPositiveRule ingredient_lower
    (foodTagRule tags ingredient
      (foodCascade strict_keys prefer_keys ingredient ingredient_lower st))

/-- Return value of `calculate_food_scores`. -/
structure FoodResult where
  status : String
  safety_score : Int
  sensitivity_score : Int
  match_score : Int
  for_me_score : Int
  final_cap : Int
  has_strict_allergen_explicit : Bool
  has_strict_allergen_traces : Bool
  from_profile_match : List ProfileFinding
  generic_risks : List GenericRisk
  safety_issues : List String
  sensitivity_issues : List String
  category : String
deriving DecidableEq, Repr

/-- `calculate_food_scores(profile, ingredient_risks, ingredients_list)`. -/
def calculate_food_scores (profile : UserProfile) (ingredient_risks : RisksMap)
    (ingredients_list : List String) : FoodResult :=
  let strict_keys := strictAvoidKeys profile.food_strict_avoid
  let prefer_keys := preferAvoidList profile.food_prefer_avoid
  let st := ingredients_list.foldl
    (fun st i => foodStep strict_keys prefer_keys ingredient_risks st i) {}
  let sc := apply_repeated_reactions_to_scores profile ingredients_list
    st.safety_score st.final_cap
  let for_me := min (foodWeighted sc.1 st.sensitivity_score st.match_score) sc.2
  { status := "success"
    safety_score := sc.1
    sensitivity_score := st.sensitivity_score
    match_score := st.match_score
    for_me_score := for_me
    final_cap := sc.2
    has_strict_allergen_explicit := st.has_strict_allergen_explicit
    has_strict_allergen_traces := st.has_strict_allergen_traces
    from_profile_match := st.from_profile_match
    generic_risks := st.generic_risks
    safety_issues := st.safety_issues
    sensitivity_issues := st.sensitivity_issues
    category := "food" }

/-! ## Cosmetics scorer (`src/agents/cosmetics_compatibility_agent.py`) -/

/-- Irritant risk tags of the cosmetics scorer. -/
def irritant_tags : List String :=
  ["fragrance", "drying_alcohol", "harsh_surfactant", "phenoxyethanol", "high_salt"]

/-- Mutable locals of `calculate_cosmetics_scores` during the loop. -/
structure CosmeticsState where
  safety_score : Int := 100
  sensitivity_score : Int := 100
  match_score : Int := 50
  final_cap : Int := 100
  from_profile_match : List ProfileFinding := []
  generic_risks : List GenericRisk := []
  safety_issues : List String := []
  sensitivity_issues : List String := []
deriving DecidableEq, Repr

/-- Effect of a cosmetics strict-avoid hit (identical explicit/traces
branching and cap values as food, without the boolean flags). -/
def cosmeticsStrictApply (strict_ing ingredient ingredient_lower : String)
    (st : CosmeticsState) : CosmeticsState :=
  if isTraces ingredient_lower = false then
    { st with
      safety_score := 0
      final_cap := min st.final_cap 15
      safety_issues := st.safety_issues ++
        [ingredient ++ ": contains component from strict_avoid list (" ++ strict_ing ++ ")"]
      from_profile_match := st.from_profile_match ++
        [⟨ingredient, "strict_allergen_explicit", "critical", "cosmetics"⟩] }
  else
    { st with
      safety_score := min st.safety_score 20
      final_cap := min st.final_cap 40
      safety_issues := st.safety_issues ++
        [ingredient ++ ": may contain traces of component from strict_avoid (" ++ strict_ing ++ ")"]
      from_profile_match := st.from_profile_match ++
        [⟨ingredient, "strict_allergen_traces", "high", "cosmetics"⟩] }

/-- The cosmetics `matched`-guarded cascade: strict avoid (no non-empty guard
in the source here), then `cosmetics_sensitivities` (guarded by
`if sens_lower and ...`), then the `COSMETICS_NEGATIVE` dictionary. -/
def cosmeticsCascade (strict_keys sensitivities : List String)
    (ingredient ingredient_lower : String) (st : CosmeticsState) : CosmeticsState :=
  match List.find? (fun k => pyMatch k ingredient_lower) strict_keys with
  | some k => cosmeticsStrictApply k ingredient ingredient_lower st
  | none =>
    match List.find?
        (fun sens => (lowerStrip sens != "") && pyMatch (lowerStrip sens) ingredient_lower)
        sensitivities with
    | some sens =>
      { st with
        sensitivity_score := max 0 (st.sensitivity_score - 20)
        sensitivity_issues := st.sensitivity_issues ++
          [ingredient ++ ": you indicated sensitivity to components of type (" ++ sens ++ ")"]
        from_profile_match := st.from_profile_match ++
          [⟨ingredient, "sensitivity", "medium", "cosmetics"⟩] }
    | none =>
      match List.find? (fun neg => pyIn (pyLower neg.1) ingredient_lower) COSMETICS_NEGATIVE with
      | some neg =>
        { st with
          sensitivity_score := max 0 (st.sensitivity_score - 15)
          sensitivity_issues := st.sensitivity_issues ++
            [ingredient ++ ": may be an irritating component (" ++ neg.1 ++ ")"]
          generic_risks := st.generic_risks ++
            [⟨ingredient, "may be an irritant (" ++ neg.1 ++ ")", "irritant", "cosmetics"⟩] }
      | none => st

/-- The irritant risk-tag rule.  As in the food scorer, this loop is NOT
guarded by `matched` in the source: it runs for every ingredient. -/
def cosmeticsTagRule (tags : List String) (ingredient : String)
    (st : CosmeticsState) : CosmeticsState :=
  match List.find? (fun tag => irritant_tags.contains (pyLower tag)) tags with
  | some tag =>
    { st with
      sensitivity_score := max 0 (st.sensitivity_score - 10)
      sensitivity_issues := st.sensitivity_issues ++
        [ingredient ++ ": contains potential irritant (" ++ pyLower tag ++ ")"]
      generic_risks := st.generic_risks ++
        [⟨ingredient, "risk tag: " ++ pyLower tag, "irritant_tag", "cosmetics"⟩] }
  | none => st

/-- Match bonus of a `COSMETICS_POSITIVE` hit, depending on hair goals/type. -/
def cosmeticsPositiveBonus (pos_tags : List String) (hair_type : String)
    (hair_goals : List String) (m : Int) : Int :=
  if pos_tags.contains "hydration" && hair_goals.contains "hydration" then
    min 100 (m + 15)
  else if pos_tags.contains "anti_frizz" && hair_goals.contains "anti_frizz" then
    min 100 (m + 15)
  else if pos_tags.contains "curl_friendly" && hair_type == "curly" then
    min 100 (m + 10)
  else
    min 100 (m + 5)

/-- The `COSMETICS_POSITIVE` rule (first matching key wins). -/
def cosmeticsPositiveRule (hair_type : String) (hair_goals : List String)
    (ingredient_lower : String) (st : CosmeticsState) : CosmeticsState :=
  match List.find? (fun pos => pyIn (pyLower pos.1) ingredient_lower) COSMETICS_POSITIVE with
  | some pos =>
    { st with match_score := cosmeticsPositiveBonus pos.2 hair_type hair_goals st.match_score }
  | none => st

/-- One iteration of the cosmetics per-ingredient loop. -/
def cosmeticsStep (strict_keys sensitivities : List String) (hair_type : String)
    (hair_goals : List String) (ingredient_risks : RisksMap)
    (st : CosmeticsState) (ingredient : String) : CosmeticsState :=
  let ingredient_lower := pyLower ingredient
  let tags := risksGet ingredient_risks ingredient
  cosmeticsPositiveRule hair_type hair_goals ingredient_lower
    (cosmeticsTagRule tags ingredient
      (cosmeticsCascade strict_keys sensitivities ingredient ingredient_lower st))

/-- Return value of `calculate_cosmetics_scores`. -/
structure CosmeticsResult where
  status : String
  safety_score : Int
  sensitivity_score : Int
  match_score : Int
  for_me_score : Int
  final_cap : Int
  from_profile_match : List ProfileFinding
  generic_risks : List GenericRisk
  safety_issues : List String
  sensitivity_issues : List String
  category : String
deriving DecidableEq, Repr

/-- `calculate_cosmetics_scores(profile, ingredient_risks, ingredients_list)`. -/
def calculate_cosmetics_scores (profile : UserProfile) (ingredient_risks : RisksMap)
    (ingredients_list : List String) : CosmeticsResult :=
  let strict_keys := strictAvoidKeys profile.strict_avoid
  let st := ingredients_list.foldl
    (fun st i =>
      cosmeticsStep strict_keys profile.cosmetics_sensitivities profile.hair_type
        profile.hair_goals ingredient_risks st i)
    {}
  let sc := apply_repeated_reactions_to_scores profile ingredients_list
    st.safety_score st.final_cap
  let for_me := min (cosmeticsWeighted sc.1 st.sensitivity_score st.match_score) sc.2
  { status := "success"
    safety_score := sc.1
    sensitivity_score := st.sensitivity_score
    match_score := st.match_score
    for_me_score := for_me
    final_cap := sc.2
    from_profile_match := st.from_profile_match
    generic_risks := st.generic_risks
    safety_issues := st.safety_issues
    sensitivity_issues := st.sensitivity_issues
    category := "cosmetics" }

/-! ## Household scorer (`src/agents/household_compatibility_agent.py`) -/

/-- Mutable locals of `calculate_household_scores` during the loop. -/
structure HouseholdState where
  safety_score : Int := 100
  sensitivity_score : Int := 100
  match_score : Int := 50
  final_cap : Int := 100
  from_profile_match : List ProfileFinding := []
  generic_risks : List GenericRisk := []
deriving DecidableEq, Repr

/-- The `HOUSEHOLD_POSITIVE` rule (independent of `matched`). -/
def householdPositiveRule (ingredient_lower : String) (st : HouseholdState) :
    HouseholdState :=
  if HOUSEHOLD_POSITIVE.any (fun p => pyIn (pyLower p.1) ingredient_lower) then
    { st with match_score := min 100 (st.match_score + 10) }
  else st

/-- The household cascade: strict avoid (bidirectional, NO non-empty guard in
the source), then `HOUSEHOLD_RISK` (critical only when the risk key is also a
substring of some strict-avoid entry, else a warning), then
`household_sensitivities`, then `HOUSEHOLD_WARN`. -/
def householdCascade (strict_keys sensitivities : List String)
    (ingredient ingredient_lower : String) (st : HouseholdState) : HouseholdState :=
  match List.find? (fun k => pyMatch k ingredient_lower) strict_keys with
  | some _ =>
    { st with
      safety_score := 0
      final_cap := min st.final_cap 20
      from_profile_match := st.from_profile_match ++
        [⟨ingredient, "strict_avoid", "critical", "household"⟩] }
  | none =>
    match List.find? (fun p => pyIn (pyLower p.1) ingredient_lower) HOUSEHOLD_RISK with
    | some p =>
      if strict_keys.any (fun sa => pyIn (pyLower p.1) (pyLower sa)) then
        { st with
          safety_score := 0
          final_cap := min st.final_cap 20
          from_profile_match := st.from_profile_match ++
            [⟨ingredient, "strict_avoid", "critical", "household"⟩] }
      else
        { st with
          sensitivity_score := max 0 (st.sensitivity_score - 10)
          generic_risks := st.generic_risks ++
            [⟨ingredient, "contains " ++ p.1, "warning", "household"⟩] }
    | none =>
      match List.find? (fun sens => pyMatch (lowerStrip sens) ingredient_lower) sensitivities with
      | some _ =>
        { st with
          sensitivity_score := max 0 (st.sensitivity_score - 15)
          from_profile_match := st.from_profile_match ++
            [⟨ingredient, "sensitivity", "medium", "household"⟩] }
      | none =>
        match List.find? (fun w => pyIn (pyLower w.1) ingredient_lower) HOUSEHOLD_WARN with
        | some w =>
          { st with
            sensitivity_score := max 0 (st.sensitivity_score - 10)
            generic_risks := st.generic_risks ++
              [⟨ingredient, "may be an irritant (" ++ w.1 ++ ")", "irritant", "household"⟩] }
        | none => st

/-- One iteration of the household per-ingredient loop. -/
def householdStep (strict_keys sensitivities : List String)
    (st : HouseholdState) (ingredient : String) : HouseholdState :=
  let ingredient_lower := pyLower ingredient
  householdPositiveRule ingredient_lower
    (householdCascade strict_keys sensitivities ingredient ingredient_lower st)

/-- Return value of `calculate_household_scores` (no allergen flags and no
issue string lists in this scorer). -/
structure HouseholdResult where
  status : String
  safety_score : Int
  sensitivity_score : Int
  match_score : Int
  for_me_score : Int
  final_cap : Int
  from_profile_match : List ProfileFinding
  generic_risks : List GenericRisk
  category : String
deriving DecidableEq, Repr

/-- `calculate_household_scores(profile, ingredient_risks, ingredients_list)`.
(`ingredient_risks` is accepted but never read by the household loop.) -/
def calculate_household_scores (profile : UserProfile) (_ingredient_risks : RisksMap)
    (ingredients_list : List String) : HouseholdResult :=
  let strict_keys := householdStrictKeys profile.household_strict_avoid
  let st := ingredients_list.foldl
    (fun st i => householdStep strict_keys profile.household_sensitivities st i) {}
  let sc := apply_repeated_reactions_to_scores profile ingredients_list
    st.safety_score st.final_cap
  let for_me := min (householdWeighted sc.1 st.sensitivity_score st.match_score) sc.2
  { status := "success"
    safety_score := sc.1
    sensitivity_score := st.sensitivity_score
    match_score := st.match_score
    for_me_score := for_me
    final_cap := sc.2
    from_profile_match := st.from_profile_match
    generic_risks := st.generic_risks
    category := "household" }

/-! # General helper lemmas -/

/-- Preservation of an invariant along a left fold, with the step hypothesis
restricted to members of the list. -/
theorem foldl_preserves {α β : Type} {P : α → Prop} {f : α → β → α} :
    ∀ (l : List β), (∀ a b, b ∈ l → P a → P (f a b)) → ∀ a, P a → P (l.foldl f a)
  | [], _, _, ha => ha
  | b :: l, h, a, ha =>
    foldl_preserves l (fun a' b' hb' => h a' b' (List.mem_cons_of_mem b hb')) (f a b)
      (h a b (List.mem_cons_self b l) ha)

/-! # Reaction Memory Adjuster lemmas -/

/-- Case analysis of one reaction-memory step: unchanged (no match), or the
severe, moderate/unrecognized, or mild bucket penalty. -/
theorem reactionStep_cases (e : ReactionEntry) (il : String) (sc : Int × Int) :
    reactionStep e il sc = sc ∨
    reactionStep e il sc = (0, min sc.2 10) ∨
    reactionStep e il sc = (min sc.1 20, min sc.2 20) ∨
    reactionStep e il sc = (max 0 (sc.1 - 30), min sc.2 50) := by
  simp only [reactionStep]
  split_ifs <;> simp

/-- A non-matching entry leaves the running scores unchanged. -/
theorem reactionStep_no_match (e : ReactionEntry) (il : String) (sc : Int × Int)
    (h : pyMatch (pyLower (e.ingredient.getD "")) il = false) :
    reactionStep e il sc = sc := by
  have h' : (pyIn (pyLower (e.ingredient.getD "")) il ||
      pyIn il (pyLower (e.ingredient.getD ""))) = false := h
  unfold reactionStep
  simp [h']

/-- A matching entry with a severe frequency sets safety to 0 and the cap to
`min cap 10`. -/
theorem reactionStep_match_severe (e : ReactionEntry) (il : String) (sc : Int × Int)
    (hm : pyMatch (pyLower (e.ingredient.getD "")) il = true)
    (hf : severe_triggers.contains (pyStrip (pyLower (e.frequency.getD "always"))) = true) :
    reactionStep e il sc = (0, min sc.2 10) := by
  have hm' : (pyIn (pyLower (e.ingredient.getD "")) il ||
      pyIn il (pyLower (e.ingredient.getD ""))) = true := hm
  have hf' : pyStrip (pyLower (e.frequency.getD "always")) ∈ severe_triggers := by
    simpa using hf
  unfold reactionStep
  simp [hm', hf']

/-- A matching entry with a moderate frequency clamps safety to 20 and the cap
to `min cap 20`. -/
theorem reactionStep_match_moderate (e : ReactionEntry) (il : String) (sc : Int × Int)
    (hm : pyMatch (pyLower (e.ingredient.getD "")) il = true)
    (hs : severe_triggers.contains (pyStrip (pyLower (e.frequency.getD "always"))) = false)
    (hf : moderate_triggers.contains (pyStrip (pyLower (e.frequency.getD "always"))) = true) :
    reactionStep e il sc = (min sc.1 20, min sc.2 20) := by
  have hm' : (pyIn (pyLower (e.ingredient.getD "")) il ||
      pyIn il (pyLower (e.ingredient.getD ""))) = true := hm
  have hs' : pyStrip (pyLower (e.frequency.getD "always")) ∉ severe_triggers := by
    simpa using hs
  have hf' : pyStrip (pyLower (e.frequency.getD "always")) ∈ moderate_triggers := by
    simpa using hf
  unfold reactionStep
  simp [hm', hs', hf']

/-- A matching entry with a mild frequency subtracts 30 (floored at 0) and
clamps the cap to `min cap 50`. -/
theorem reactionStep_match_mild (e : ReactionEntry) (il : String) (sc : Int × Int)
    (hm : pyMatch (pyLower (e.ingredient.getD "")) il = true)
    (hs : severe_triggers.contains (pyStrip (pyLower (e.frequency.getD "always"))) = false)
    (hmo : moderate_triggers.contains (pyStrip (pyLower (e.frequency.getD "always"))) = false)
    (hf : mild_triggers.contains (pyStrip (pyLower (e.frequency.getD "always"))) = true) :
    reactionStep e il sc = (max 0 (sc.1 - 30), min sc.2 50) := by
  have hm' : (pyIn (pyLower (e.ingredient.getD "")) il ||
      pyIn il (pyLower (e.ingredient.getD ""))) = true := hm
  have hs' : pyStrip (pyLower (e.frequency.getD "always")) ∉ severe_triggers := by
    simpa using hs
  have hmo' : pyStrip (pyLower (e.frequency.getD "always")) ∉ moderate_triggers := by
    simpa using hmo
  have hf' : pyStrip (pyLower (e.frequency.getD "always")) ∈ mild_triggers := by
    simpa using hf
  unfold reactionStep
  simp [hm', hs', hmo', hf']

/-- A matching entry with an unrecognized frequency is treated as moderate. -/
theorem reactionStep_match_default (e : ReactionEntry) (il : String) (sc : Int × Int)
    (hm : pyMatch (pyLower (e.ingredient.getD "")) il = true)
    (hs : severe_triggers.contains (pyStrip (pyLower (e.frequency.getD "always"))) = false)
    (hmo : moderate_triggers.contains (pyStrip (pyLower (e.frequency.getD "always"))) = false)
    (hmi : mild_triggers.contains (pyStrip (pyLower (e.frequency.getD "always"))) = false) :
    reactionStep e il sc = (min sc.1 20, min sc.2 20) := by
  have hm' : (pyIn (pyLower (e.ingredient.getD "")) il ||
      pyIn il (pyLower (e.ingredient.getD ""))) = true := hm
  have hs' : pyStrip (pyLower (e.frequency.getD "always")) ∉ severe_triggers := by
    simpa using hs
  have hmo' : pyStrip (pyLower (e.frequency.getD "always")) ∉ moderate_triggers := by
    simpa using hmo
  have hmi' : pyStrip (pyLower (e.frequency.getD "always")) ∉ mild_triggers := by
    simpa using hmi
  unfold reactionStep
  simp [hm', hs', hmo', hmi']

/-- A reaction step keeps `safety = 0` and keeps the cap at or below any bound
`B ≥ 10`. -/
theorem reactionStep_zero_cap {B : Int} (e : ReactionEntry)
    (il : String) (sc : Int × Int) (h : sc.1 = 0 ∧ sc.2 ≤ B) :
    (reactionStep e il sc).1 = 0 ∧ (reactionStep e il sc).2 ≤ B := by
  obtain ⟨h1, h2⟩ := h
  rcases reactionStep_cases e il sc with hc | hc | hc | hc <;> rw [hc] <;> omega

/-- A reaction step keeps `safety ≤ 20 ∧ cap ≤ 40`. -/
theorem reactionStep_le20_40 (e : ReactionEntry) (il : String) (sc : Int × Int)
    (h : sc.1 ≤ 20 ∧ sc.2 ≤ 40) :
    (reactionStep e il sc).1 ≤ 20 ∧ (reactionStep e il sc).2 ≤ 40 := by
  obtain ⟨h1, h2⟩ := h
  rcases reactionStep_cases e il sc with hc | hc | hc | hc <;> rw [hc] <;> omega

/-- A reaction step keeps the safety score within `[0, 100]`. -/
theorem reactionStep_range (e : ReactionEntry) (il : String) (sc : Int × Int)
    (h : 0 ≤ sc.1 ∧ sc.1 ≤ 100) :
    0 ≤ (reactionStep e il sc).1 ∧ (reactionStep e il sc).1 ≤ 100 := by
  obtain ⟨h1, h2⟩ := h
  rcases reactionStep_cases e il sc with hc | hc | hc | hc <;> rw [hc] <;> omega

/-- A reaction step never increases the safety score (for nonnegative input)
nor the cap, and keeps the safety score nonnegative. -/
theorem reactionStep_mono (e : ReactionEntry) (il : String) (sc : Int × Int)
    (h : 0 ≤ sc.1) :
    (reactionStep e il sc).1 ≤ sc.1 ∧ (reactionStep e il sc).2 ≤ sc.2 ∧
      0 ≤ (reactionStep e il sc).1 := by
  rcases reactionStep_cases e il sc with hc | hc | hc | hc <;> rw [hc] <;> omega

/-- Invariant preservation through the whole adjuster. -/
theorem apply_reactions_preserves {P : Int × Int → Prop}
    (hstep : ∀ e il sc, P sc → P (reactionStep e il sc))
    (profile : UserProfile) (l : List String) (s c : Int) (h : P (s, c)) :
    P (apply_repeated_reactions_to_scores profile l s c) :=
  foldl_preserves l
    (fun sc i _ hsc =>
      foldl_preserves profile.repeated_negative_reactions
        (fun sc2 e _ h2 => hstep e (pyLower i) sc2 h2) sc hsc)
    (s, c) h

/-- If no (ingredient, reaction entry) pair matches, the adjuster is the
identity. -/
theorem apply_reactions_no_match (profile : UserProfile) (l : List String)
    (s c : Int)
    (h : ∀ i ∈ l, ∀ e ∈ profile.repeated_negative_reactions,
        pyMatch (pyLower (e.ingredient.getD "")) (pyLower i) = false) :
    apply_repeated_reactions_to_scores profile l s c = (s, c) :=
  foldl_preserves (P := fun sc => sc = (s, c)) l
    (fun sc i hi hsc =>
      foldl_preserves (P := fun sc2 => sc2 = (s, c))
        profile.repeated_negative_reactions
        (fun sc2 e he h2 => by rw [reactionStep_no_match e (pyLower i) sc2 (h i hi e he)]; exact h2)
        sc hsc)
    (s, c) rfl

/-! # Claim theorems: Reaction Memory Adjuster -/

/-- Claim C5: for each ingredient matching a `repeated_negative_reactions`
entry by bidirectional substring containment, the adjuster applies that
entry's frequency-bucket penalty — severe sets `safety = 0` and
`cap = min cap 10`; moderate sets `safety = min safety 20` and
`cap = min cap 20`; mild sets `safety = max 0 (safety − 30)` and
`cap = min cap 50`; an unrecognized frequency string is treated as moderate —
while a non-matching pair changes nothing; the adjuster is exactly the fold of
these steps over ingredients and entries in list order, and the steps never
loosen the running values (safety and cap are non-increasing, safety staying
nonnegative). -/
theorem C5_reaction_memory_buckets :
    (∀ (e : ReactionEntry) (il : String) (sc : Int × Int),
      pyMatch (pyLower (e.ingredient.getD "")) il = true →
      ((severe_triggers.contains (pyStrip (pyLower (e.frequency.getD "always"))) = true →
          reactionStep e il sc = (0, min sc.2 10)) ∧
       (severe_triggers.contains (pyStrip (pyLower (e.frequency.getD "always"))) = false →
        moderate_triggers.contains (pyStrip (pyLower (e.frequency.getD "always"))) = true →
          reactionStep e il sc = (min sc.1 20, min sc.2 20)) ∧
       (severe_triggers.contains (pyStrip (pyLower (e.frequency.getD "always"))) = false →
        moderate_triggers.contains (pyStrip (pyLower (e.frequency.getD "always"))) = false →
        mild_triggers.contains (pyStrip (pyLower (e.frequency.getD "always"))) = true →
          reactionStep e il sc = (max 0 (sc.1 - 30), min sc.2 50)) ∧
       (severe_triggers.contains (pyStrip (pyLower (e.frequency.getD "always"))) = false →
        moderate_triggers.contains (pyStrip (pyLower (e.frequency.getD "always"))) = false →
        mild_triggers.contains (pyStrip (pyLower (e.frequency.getD "always"))) = false →
          reactionStep e il sc = (min sc.1 20, min sc.2 20)))) ∧
    (∀ (e : ReactionEntry) (il : String) (sc : Int × Int),
      pyMatch (pyLower (e.ingredient.getD "")) il = false →
      reactionStep e il sc = sc) ∧
    (∀ (profile : UserProfile) (l : List String) (s c : Int),
      apply_repeated_reactions_to_scores profile l s c =
        l.foldl
          (fun sc i =>
            profile.repeated_negative_reactions.foldl
              (fun sc2 e => reactionStep e (pyLower i) sc2) sc)
          (s, c)) ∧
    (∀ (e : ReactionEntry) (il : String) (sc : Int × Int), 0 ≤ sc.1 →
      (reactionStep e il sc).1 ≤ sc.1 ∧ (reactionStep e il sc).2 ≤ sc.2) ∧
    (∀ (profile : UserProfile) (l : List String) (s c : Int), 0 ≤ s →
      (apply_repeated_reactions_to_scores profile l s c).1 ≤ s ∧
      (apply_repeated_reactions_to_scores profile l s c).2 ≤ c) := by
  refine ⟨?_, ?_, fun _ _ _ _ => rfl, ?_, ?_⟩
  · intro e il sc hm
    have hm' : (pyIn (pyLower (e.ingredient.getD "")) il ||
        pyIn il (pyLower (e.ingredient.getD ""))) = true := hm
    refine ⟨?_, ?_, ?_, ?_⟩ <;> intros <;> unfold reactionStep <;> simp_all
  · exact reactionStep_no_match
  · exact fun e il sc h => ⟨(reactionStep_mono e il sc h).1, (reactionStep_mono e il sc h).2.1⟩
  · intro profile l s c hs
    have h := apply_reactions_preserves
      (P := fun sc => 0 ≤ sc.1 ∧ sc.1 ≤ s ∧ sc.2 ≤ c)
      (fun e il sc hsc => by
        obtain ⟨h0, h1, h2⟩ := hsc
        obtain ⟨m1, m2, m3⟩ := reactionStep_mono e il sc h0
        exact ⟨m3, le_trans m1 h1, le_trans m2 h2⟩)
      profile l s c ⟨hs, le_refl s, le_refl c⟩
    exact ⟨h.2.1, h.2.2⟩

/-- Claim C5 witness: concrete instances of each bucket. -/
theorem C5_reaction_memory_buckets_witness :
    reactionStep { ingredient := some "milk", frequency := some "always" } "milk" (100, 100)
      = (0, 10) ∧
    reactionStep { ingredient := some "milk", frequency := some "often" } "milk" (100, 100)
      = (20, 20) ∧
    reactionStep { ingredient := some "milk", frequency := some "sometimes" } "milk" (100, 100)
      = (70, 50) ∧
    reactionStep { ingredient := some "milk", frequency := some "daily" } "milk" (100, 100)
      = (20, 20) ∧
    reactionStep { ingredient := some "egg", frequency := some "always" } "milk" (100, 100)
      = (100, 100) ∧
    (apply_repeated_reactions_to_scores
        { repeated_negative_reactions :=
            [{ ingredient := some "milk", frequency := some "always" }] }
        ["milk", "water"] 100 100).1 ≤ 100 := by
  have h1 := (C5_reaction_memory_buckets.1
    { ingredient := some "milk", frequency := some "always" } "milk" (100, 100)
    (by decide)).1 (by decide)
  have h2 := ((C5_reaction_memory_buckets.1
    { ingredient := some "milk", frequency := some "often" } "milk" (100, 100)
    (by decide)).2.1 (by decide)) (by decide)
  have h3 := (((C5_reaction_memory_buckets.1
    { ingredient := some "milk", frequency := some "sometimes" } "milk" (100, 100)
    (by decide)).2.2.1 (by decide)) (by decide)) (by decide)
  have h4 := (((C5_reaction_memory_buckets.1
    { ingredient := some "milk", frequency := some "daily" } "milk" (100, 100)
    (by decide)).2.2.2 (by decide)) (by decide)) (by decide)
  have h5 := C5_reaction_memory_buckets.2.1
    { ingredient := some "egg", frequency := some "always" } "milk" (100, 100) (by decide)
  have h6 := (C5_reaction_memory_buckets.2.2.2.2
    { repeated_negative_reactions :=
        [{ ingredient := some "milk", frequency := some "always" }] }
    ["milk", "water"] 100 100 (by decide)).1
  refine ⟨by rw [h1]; decide, by rw [h2]; decide, by rw [h3]; decide,
    by rw [h4]; decide, h5, h6⟩

/-- Claim C6 counterexample: the entry `{"ingredient": "sls", "frequency":
"always"}` does NOT match the ingredient `"sodium lauryl sulfate"` under
bidirectional substring containment (`"sls"` is not a substring of it), so the
adjuster leaves `(100, 100)` unchanged instead of producing safety 0 and cap
at most 10. -/
theorem C6_sls_counterexample :
    apply_repeated_reactions_to_scores
        { repeated_negative_reactions :=
            [{ ingredient := some "sls", frequency := some "always" }] }
        ["sodium lauryl sulfate"] 100 100 = (100, 100) ∧
    ¬((apply_repeated_reactions_to_scores
        { repeated_negative_reactions :=
            [{ ingredient := some "sls", frequency := some "always" }] }
        ["sodium lauryl sulfate"] 100 100).1 = 0 ∧
      (apply_repeated_reactions_to_scores
        { repeated_negative_reactions :=
            [{ ingredient := some "sls", frequency := some "always" }] }
        ["sodium lauryl sulfate"] 100 100).2 ≤ 10) := by
  decide

/-- Claim C6 (amended): for the profile with
`repeated_negative_reactions = [{"ingredient": "sls", "frequency": "always"}]`
and any ingredient list containing an ingredient that matches `"sls"` under
bidirectional substring containment (e.g. the ingredient `"sls"` itself — the
literal `"sodium lauryl sulfate"` does not match), the post-adjustment safety
score is 0 and the final cap is at most 10. -/
theorem C6_sls_reaction_amended (s c : Int) (ingredients : List String)
    (h : ∃ i ∈ ingredients, pyMatch "sls" (pyLower i) = true) :
    (apply_repeated_reactions_to_scores
        { repeated_negative_reactions :=
            [{ ingredient := some "sls", frequency := some "always" }] }
        ingredients s c).1 = 0 ∧
    (apply_repeated_reactions_to_scores
        { repeated_negative_reactions :=
            [{ ingredient := some "sls", frequency := some "always" }] }
        ingredients s c).2 ≤ 10 := by
  obtain ⟨i, hi, hmatch⟩ := h
  obtain ⟨pre, post, rfl⟩ := List.append_of_mem hi
  unfold apply_repeated_reactions_to_scores
  rw [List.foldl_append, List.foldl_cons]
  apply foldl_preserves (P := fun sc => sc.1 = 0 ∧ sc.2 ≤ 10) post
    (fun sc j _ hsc =>
      foldl_preserves _ (fun sc2 e _ h2 => reactionStep_zero_cap e (pyLower j) sc2 h2)
        sc hsc)
  simp only [List.foldl_cons, List.foldl_nil]
  have hmatch' : pyMatch (pyLower ((some "sls" : Option String).getD "")) (pyLower i) = true := by
    have hle : pyLower ((some "sls" : Option String).getD "") = "sls" := by decide
    rw [hle]; exact hmatch
  rw [reactionStep_match_severe _ _ _ hmatch' (by decide)]
  exact ⟨rfl, min_le_right _ _⟩

/-- Claim C6 witness for the amended statement: ingredient list `["sls"]`. -/
theorem C6_sls_reaction_amended_witness :
    (apply_repeated_reactions_to_scores
        { repeated_negative_reactions :=
            [{ ingredient := some "sls", frequency := some "always" }] }
        ["sls"] 100 100).1 = 0 ∧
    (apply_repeated_reactions_to_scores
        { repeated_negative_reactions :=
            [{ ingredient := some "sls", frequency := some "always" }] }
        ["sls"] 100 100).2 ≤ 10 :=
  C6_sls_reaction_amended 100 100 ["sls"] ⟨"sls", by decide, by decide⟩

/-! # Score-range lemmas (per-rule, per-scorer) -/

/-- A food strict-avoid hit keeps all three scores in range. -/
theorem foodStrictApply_range (k ing il : String) (st : FoodState)
    (h : 0 ≤ st.safety_score ∧ st.safety_score ≤ 100 ∧
      0 ≤ st.sensitivity_score ∧ st.sensitivity_score ≤ 100 ∧
      0 ≤ st.match_score ∧ st.match_score ≤ 100) :
    0 ≤ (foodStrictApply k ing il st).safety_score ∧
      (foodStrictApply k ing il st).safety_score ≤ 100 ∧
      0 ≤ (foodStrictApply k ing il st).sensitivity_score ∧
      (foodStrictApply k ing il st).sensitivity_score ≤ 100 ∧
      0 ≤ (foodStrictApply k ing il st).match_score ∧
      (foodStrictApply k ing il st).match_score ≤ 100 := by
  obtain ⟨h1, h2, h3, h4, h5, h6⟩ := h
  unfold foodStrictApply
  split <;> dsimp <;> omega

/-- The food cascade keeps all three scores in range. -/
theorem foodCascade_range (ks ps : List String) (ing il : String) (st : FoodState)
    (h : 0 ≤ st.safety_score ∧ st.safety_score ≤ 100 ∧
      0 ≤ st.sensitivity_score ∧ st.sensitivity_score ≤ 100 ∧
      0 ≤ st.match_score ∧ st.match_score ≤ 100) :
    0 ≤ (foodCascade ks ps ing il st).safety_score ∧
      (foodCascade ks ps ing il st).safety_score ≤ 100 ∧
      0 ≤ (foodCascade ks ps ing il st).sensitivity_score ∧
      (foodCascade ks ps ing il st).sensitivity_score ≤ 100 ∧
      0 ≤ (foodCascade ks ps ing il st).match_score ∧
      (foodCascade ks ps ing il st).match_score ≤ 100 := by
  unfold foodCascade
  split
  · exact foodStrictApply_range _ _ _ _ h
  · obtain ⟨h1, h2, h3, h4, h5, h6⟩ := h
    split
    · dsimp; omega
    · split
      · dsimp; omega
      · exact ⟨h1, h2, h3, h4, h5, h6⟩

/-- The food risk-tag rule keeps all three scores in range. -/
theorem foodTagRule_range (tags : List String) (ing : String) (st : FoodState)
    (h : 0 ≤ st.safety_score ∧ st.safety_score ≤ 100 ∧
      0 ≤ st.sensitivity_score ∧ st.sensitivity_score ≤ 100 ∧
      0 ≤ st.match_score ∧ st.match_score ≤ 100) :
    0 ≤ (foodTagRule tags ing st).safety_score ∧
      (foodTagRule tags ing st).safety_score ≤ 100 ∧
      0 ≤ (foodTagRule tags ing st).sensitivity_score ∧
      (foodTagRule tags ing st).sensitivity_score ≤ 100 ∧
      0 ≤ (foodTagRule tags ing st).match_score ∧
      (foodTagRule tags ing st).match_score ≤ 100 := by
  obtain ⟨h1, h2, h3, h4, h5, h6⟩ := h
  unfold foodTagRule
  split
  · dsimp; omega
  · exact ⟨h1, h2, h3, h4, h5, h6⟩

/-- The food positive rule keeps all three scores in range. -/
theorem foodPositiveRule_range (il : String) (st : FoodState)
    (h : 0 ≤ st.safety_score ∧ st.safety_score ≤ 100 ∧
      0 ≤ st.sensitivity_score ∧ st.sensitivity_score ≤ 100 ∧
      0 ≤ st.match_score ∧ st.match_score ≤ 100) :
    0 ≤ (foodPositiveRule il st).safety_score ∧
      (foodPositiveRule il st).safety_score ≤ 100 ∧
      0 ≤ (foodPositiveRule il st).sensitivity_score ∧
      (foodPositiveRule il st).sensitivity_score ≤ 100 ∧
      0 ≤ (foodPositiveRule il st).match_score ∧
      (foodPositiveRule il st).match_score ≤ 100 := by
  obtain ⟨h1, h2, h3, h4, h5, h6⟩ := h
  unfold foodPositiveRule
  split
  · dsimp; omega
  · exact ⟨h1, h2, h3, h4, h5, h6⟩

/-- One food loop iteration keeps all three scores in range. -/
theorem foodStep_range (ks ps : List String) (risks : RisksMap) (st : FoodState)
    (i : String)
    (h : 0 ≤ st.safety_score ∧ st.safety_score ≤ 100 ∧
      0 ≤ st.sensitivity_score ∧ st.sensitivity_score ≤ 100 ∧
      0 ≤ st.match_score ∧ st.match_score ≤ 100) :
    0 ≤ (foodStep ks ps risks st i).safety_score ∧
      (foodStep ks ps risks st i).safety_score ≤ 100 ∧
      0 ≤ (foodStep ks ps risks st i).sensitivity_score ∧
      (foodStep ks ps risks st i).sensitivity_score ≤ 100 ∧
      0 ≤ (foodStep ks ps risks st i).match_score ∧
      (foodStep ks ps risks st i).match_score ≤ 100 :=
  foodPositiveRule_range _ _
    (foodTagRule_range _ _ _
      (foodCascade_range _ _ _ _ _ h))

/-- A cosmetics strict-avoid hit keeps all three scores in range. -/
theorem cosmeticsStrictApply_range (k ing il : String) (st : CosmeticsState)
    (h : 0 ≤ st.safety_score ∧ st.safety_score ≤ 100 ∧
      0 ≤ st.sensitivity_score ∧ st.sensitivity_score ≤ 100 ∧
      0 ≤ st.match_score ∧ st.match_score ≤ 100) :
    0 ≤ (cosmeticsStrictApply k ing il st).safety_score ∧
      (cosmeticsStrictApply k ing il st).safety_score ≤ 100 ∧
      0 ≤ (cosmeticsStrictApply k ing il st).sensitivity_score ∧
      (cosmeticsStrictApply k ing il st).sensitivity_score ≤ 100 ∧
      0 ≤ (cosmeticsStrictApply k ing il st).match_score ∧
      (cosmeticsStrictApply k ing il st).match_score ≤ 100 := by
  obtain ⟨h1, h2, h3, h4, h5, h6⟩ := h
  unfold cosmeticsStrictApply
  split <;> dsimp <;> omega

/-- The cosmetics cascade keeps all three scores in range. -/
theorem cosmeticsCascade_range (ks sens : List String) (ing il : String)
    (st : CosmeticsState)
    (h : 0 ≤ st.safety_score ∧ st.safety_score ≤ 100 ∧
      0 ≤ st.sensitivity_score ∧ st.sensitivity_score ≤ 100 ∧
      0 ≤ st.match_score ∧ st.match_score ≤ 100) :
    0 ≤ (cosmeticsCascade ks sens ing il st).safety_score ∧
      (cosmeticsCascade ks sens ing il st).safety_score ≤ 100 ∧
      0 ≤ (cosmeticsCascade ks sens ing il st).sensitivity_score ∧
      (cosmeticsCascade ks sens ing il st).sensitivity_score ≤ 100 ∧
      0 ≤ (cosmeticsCascade ks sens ing il st).match_score ∧
      (cosmeticsCascade ks sens ing il st).match_score ≤ 100 := by
  unfold cosmeticsCascade
  split
  · exact cosmeticsStrictApply_range _ _ _ _ h
  · obtain ⟨h1, h2, h3, h4, h5, h6⟩ := h
    split
    · dsimp; omega
    · split
      · dsimp; omega
      · exact ⟨h1, h2, h3, h4, h5, h6⟩

/-- The cosmetics irritant-tag rule keeps all three scores in range. -/
theorem cosmeticsTagRule_range (tags : List String) (ing : String)
    (st : CosmeticsState)
    (h : 0 ≤ st.safety_score ∧ st.safety_score ≤ 100 ∧
      0 ≤ st.sensitivity_score ∧ st.sensitivity_score ≤ 100 ∧
      0 ≤ st.match_score ∧ st.match_score ≤ 100) :
    0 ≤ (cosmeticsTagRule tags ing st).safety_score ∧
      (cosmeticsTagRule tags ing st).safety_score ≤ 100 ∧
      0 ≤ (cosmeticsTagRule tags ing st).sensitivity_score ∧
      (cosmeticsTagRule tags ing st).sensitivity_score ≤ 100 ∧
      0 ≤ (cosmeticsTagRule tags ing st).match_score ∧
      (cosmeticsTagRule tags ing st).match_score ≤ 100 := by
  obtain ⟨h1, h2, h3, h4, h5, h6⟩ := h
  unfold cosmeticsTagRule
  split
  · dsimp; omega
  · exact ⟨h1, h2, h3, h4, h5, h6⟩

/-- The cosmetics positive rule keeps all three scores in range. -/
theorem cosmeticsPositiveRule_range (ht : String) (hg : List String) (il : String)
    (st : CosmeticsState)
    (h : 0 ≤ st.safety_score ∧ st.safety_score ≤ 100 ∧
      0 ≤ st.sensitivity_score ∧ st.sensitivity_score ≤ 100 ∧
      0 ≤ st.match_score ∧ st.match_score ≤ 100) :
    0 ≤ (cosmeticsPositiveRule ht hg il st).safety_score ∧
      (cosmeticsPositiveRule ht hg il st).safety_score ≤ 100 ∧
      0 ≤ (cosmeticsPositiveRule ht hg il st).sensitivity_score ∧
      (cosmeticsPositiveRule ht hg il st).sensitivity_score ≤ 100 ∧
      0 ≤ (cosmeticsPositiveRule ht hg il st).match_score ∧
      (cosmeticsPositiveRule ht hg il st).match_score ≤ 100 := by
  obtain ⟨h1, h2, h3, h4, h5, h6⟩ := h
  unfold cosmeticsPositiveRule
  split
  · dsimp
    unfold cosmeticsPositiveBonus
    split_ifs <;> omega
  · exact ⟨h1, h2, h3, h4, h5, h6⟩

/-- One cosmetics loop iteration keeps all three scores in range. -/
theorem cosmeticsStep_range (ks sens : List String) (ht : String)
    (hg : List String) (risks : RisksMap) (st : CosmeticsState) (i : String)
    (h : 0 ≤ st.safety_score ∧ st.safety_score ≤ 100 ∧
      0 ≤ st.sensitivity_score ∧ st.sensitivity_score ≤ 100 ∧
      0 ≤ st.match_score ∧ st.match_score ≤ 100) :
    0 ≤ (cosmeticsStep ks sens ht hg risks st i).safety_score ∧
      (cosmeticsStep ks sens ht hg risks st i).safety_score ≤ 100 ∧
      0 ≤ (cosmeticsStep ks sens ht hg risks st i).sensitivity_score ∧
      (cosmeticsStep ks sens ht hg risks st i).sensitivity_score ≤ 100 ∧
      0 ≤ (cosmeticsStep ks sens ht hg risks st i).match_score ∧
      (cosmeticsStep ks sens ht hg risks st i).match_score ≤ 100 :=
  cosmeticsPositiveRule_range _ _ _ _
    (cosmeticsTagRule_range _ _ _
      (cosmeticsCascade_range _ _ _ _ _ h))

/-- The household cascade keeps all three scores in range. -/
theorem householdCascade_range (ks sens : List String) (ing il : String)
    (st : HouseholdState)
    (h : 0 ≤ st.safety_score ∧ st.safety_score ≤ 100 ∧
      0 ≤ st.sensitivity_score ∧ st.sensitivity_score ≤ 100 ∧
      0 ≤ st.match_score ∧ st.match_score ≤ 100) :
    0 ≤ (householdCascade ks sens ing il st).safety_score ∧
      (householdCascade ks sens ing il st).safety_score ≤ 100 ∧
      0 ≤ (householdCascade ks sens ing il st).sensitivity_score ∧
      (householdCascade ks sens ing il st).sensitivity_score ≤ 100 ∧
      0 ≤ (householdCascade ks sens ing il st).match_score ∧
      (householdCascade ks sens ing il st).match_score ≤ 100 := by
  obtain ⟨h1, h2, h3, h4, h5, h6⟩ := h
  unfold householdCascade
  split
  · dsimp; omega
  · split
    · split <;> dsimp <;> omega
    · split
      · dsimp; omega
      · split
        · dsimp; omega
        · exact ⟨h1, h2, h3, h4, h5, h6⟩

/-- The household positive rule keeps all three scores in range. -/
theorem householdPositiveRule_range (il : String) (st : HouseholdState)
    (h : 0 ≤ st.safety_score ∧ st.safety_score ≤ 100 ∧
      0 ≤ st.sensitivity_score ∧ st.sensitivity_score ≤ 100 ∧
      0 ≤ st.match_score ∧ st.match_score ≤ 100) :
    0 ≤ (householdPositiveRule il st).safety_score ∧
      (householdPositiveRule il st).safety_score ≤ 100 ∧
      0 ≤ (householdPositiveRule il st).sensitivity_score ∧
      (householdPositiveRule il st).sensitivity_score ≤ 100 ∧
      0 ≤ (householdPositiveRule il st).match_score ∧
      (householdPositiveRule il st).match_score ≤ 100 := by
  obtain ⟨h1, h2, h3, h4, h5, h6⟩ := h
  unfold householdPositiveRule
  split
  · dsimp; omega
  · exact ⟨h1, h2, h3, h4, h5, h6⟩

/-- One household loop iteration keeps all three scores in range. -/
theorem householdStep_range (ks sens : List String) (st : HouseholdState)
    (i : String)
    (h : 0 ≤ st.safety_score ∧ st.safety_score ≤ 100 ∧
      0 ≤ st.sensitivity_score ∧ st.sensitivity_score ≤ 100 ∧
      0 ≤ st.match_score ∧ st.match_score ≤ 100) :
    0 ≤ (householdStep ks sens st i).safety_score ∧
      (householdStep ks sens st i).safety_score ≤ 100 ∧
      0 ≤ (householdStep ks sens st i).sensitivity_score ∧
      (householdStep ks sens st i).sensitivity_score ≤ 100 ∧
      0 ≤ (householdStep ks sens st i).match_score ∧
      (householdStep ks sens st i).match_score ≤ 100 :=
  householdPositiveRule_range _ _ (householdCascade_range _ _ _ _ _ h)

/-! # Claim theorems: invariants and error handling -/

/-- Claim C2: for every profile, ingredient-risk map, and ingredient list,
each of the three category scorers returns a result whose safety, sensitivity
and match scores all lie in `[0, 100]`, and whose `for_me_score` is at most
`final_cap`. -/
theorem C2_score_ranges (profile : UserProfile) (risks : RisksMap)
    (ingredients : List String) :
    (0 ≤ (calculate_food_scores profile risks ingredients).safety_score ∧
      (calculate_food_scores profile risks ingredients).safety_score ≤ 100 ∧
      0 ≤ (calculate_food_scores profile risks ingredients).sensitivity_score ∧
      (calculate_food_scores profile risks ingredients).sensitivity_score ≤ 100 ∧
      0 ≤ (calculate_food_scores profile risks ingredients).match_score ∧
      (calculate_food_scores profile risks ingredients).match_score ≤ 100 ∧
      (calculate_food_scores profile risks ingredients).for_me_score ≤
        (calculate_food_scores profile risks ingredients).final_cap) ∧
    (0 ≤ (calculate_cosmetics_scores profile risks ingredients).safety_score ∧
      (calculate_cosmetics_scores profile risks ingredients).safety_score ≤ 100 ∧
      0 ≤ (calculate_cosmetics_scores profile risks ingredients).sensitivity_score ∧
      (calculate_cosmetics_scores profile risks ingredients).sensitivity_score ≤ 100 ∧
      0 ≤ (calculate_cosmetics_scores profile risks ingredients).match_score ∧
      (calculate_cosmetics_scores profile risks ingredients).match_score ≤ 100 ∧
      (calculate_cosmetics_scores profile risks ingredients).for_me_score ≤
        (calculate_cosmetics_scores profile risks ingredients).final_cap) ∧
    (0 ≤ (calculate_household_scores profile risks ingredients).safety_score ∧
      (calculate_household_scores profile risks ingredients).safety_score ≤ 100 ∧
      0 ≤ (calculate_household_scores profile risks ingredients).sensitivity_score ∧
      (calculate_household_scores profile risks ingredients).sensitivity_score ≤ 100 ∧
      0 ≤ (calculate_household_scores profile risks ingredients).match_score ∧
      (calculate_household_scores profile risks ingredients).match_score ≤ 100 ∧
      (calculate_household_scores profile risks ingredients).for_me_score ≤
        (calculate_household_scores profile risks ingredients).final_cap) := by
  have hf := foldl_preserves
    (P := fun st : FoodState => 0 ≤ st.safety_score ∧ st.safety_score ≤ 100 ∧
      0 ≤ st.sensitivity_score ∧ st.sensitivity_score ≤ 100 ∧
      0 ≤ st.match_score ∧ st.match_score ≤ 100)
    ingredients
    (fun st i _ h =>
      foodStep_range (strictAvoidKeys profile.food_strict_avoid)
        (preferAvoidList profile.food_prefer_avoid) risks st i h)
    {} (by refine ⟨?_, ?_, ?_, ?_, ?_, ?_⟩ <;> decide)
  have hfm := apply_reactions_preserves
    (P := fun sc => 0 ≤ sc.1 ∧ sc.1 ≤ 100)
    (fun e il sc h => reactionStep_range e il sc h)
    profile ingredients
    (ingredients.foldl
      (fun st i => foodStep (strictAvoidKeys profile.food_strict_avoid)
        (preferAvoidList profile.food_prefer_avoid) risks st i) {}).safety_score
    (ingredients.foldl
      (fun st i => foodStep (strictAvoidKeys profile.food_strict_avoid)
        (preferAvoidList profile.food_prefer_avoid) risks st i) {}).final_cap
    ⟨hf.1, hf.2.1⟩
  have hc := foldl_preserves
    (P := fun st : CosmeticsState => 0 ≤ st.safety_score ∧ st.safety_score ≤ 100 ∧
      0 ≤ st.sensitivity_score ∧ st.sensitivity_score ≤ 100 ∧
      0 ≤ st.match_score ∧ st.match_score ≤ 100)
    ingredients
    (fun st i _ h =>
      cosmeticsStep_range (strictAvoidKeys profile.strict_avoid)
        profile.cosmetics_sensitivities profile.hair_type profile.hair_goals
        risks st i h)
    {} (by refine ⟨?_, ?_, ?_, ?_, ?_, ?_⟩ <;> decide)
  have hcm := apply_reactions_preserves
    (P := fun sc => 0 ≤ sc.1 ∧ sc.1 ≤ 100)
    (fun e il sc h => reactionStep_range e il sc h)
    profile ingredients
    (ingredients.foldl
      (fun st i => cosmeticsStep (strictAvoidKeys profile.strict_avoid)
        profile.cosmetics_sensitivities profile.hair_type profile.hair_goals
        risks st i) {}).safety_score
    (ingredients.foldl
      (fun st i => cosmeticsStep (strictAvoidKeys profile.strict_avoid)
        profile.cosmetics_sensitivities profile.hair_type profile.hair_goals
        risks st i) {}).final_cap
    ⟨hc.1, hc.2.1⟩
  have hh := foldl_preserves
    (P := fun st : HouseholdState => 0 ≤ st.safety_score ∧ st.safety_score ≤ 100 ∧
      0 ≤ st.sensitivity_score ∧ st.sensitivity_score ≤ 100 ∧
      0 ≤ st.match_score ∧ st.match_score ≤ 100)
    ingredients
    (fun st i _ h =>
      householdStep_range (householdStrictKeys profile.household_strict_avoid)
        profile.household_sensitivities st i h)
    {} (by refine ⟨?_, ?_, ?_, ?_, ?_, ?_⟩ <;> decide)
  have hhm := apply_reactions_preserves
    (P := fun sc => 0 ≤ sc.1 ∧ sc.1 ≤ 100)
    (fun e il sc h => reactionStep_range e il sc h)
    profile ingredients
    (ingredients.foldl
      (fun st i => householdStep (householdStrictKeys profile.household_strict_avoid)
        profile.household_sensitivities st i) {}).safety_score
    (ingredients.foldl
      (fun st i => householdStep (householdStrictKeys profile.household_strict_avoid)
        profile.household_sensitivities st i) {}).final_cap
    ⟨hh.1, hh.2.1⟩
  exact
    ⟨⟨hfm.1, hfm.2, hf.2.2.1, hf.2.2.2.1, hf.2.2.2.2.1, hf.2.2.2.2.2,
        min_le_right _ _⟩,
      ⟨hcm.1, hcm.2, hc.2.2.1, hc.2.2.2.1, hc.2.2.2.2.1, hc.2.2.2.2.2,
        min_le_right _ _⟩,
      ⟨hhm.1, hhm.2, hh.2.2.1, hh.2.2.2.1, hh.2.2.2.2.1, hh.2.2.2.2.2,
        min_le_right _ _⟩⟩

/-- Claim C3 counterexample: called with an empty ingredient list, all three
category scorers return a result object whose status is `"success"`, not
`"error"` — the empty-input error object is produced upstream (by the
ingredient parser and the `analyze_*_product` wrappers), never by the
scorers. -/
theorem C3_empty_list_counterexample :
    (calculate_food_scores {} [] []).status = "success" ∧
    (calculate_cosmetics_scores {} [] []).status = "success" ∧
    (calculate_household_scores {} [] []).status = "success" ∧
    ¬((calculate_food_scores {} [] []).status = "error") :=
  ⟨rfl, rfl, rfl, by decide⟩

/-- Claim C3 (amended): for every profile and ingredient-risk map, calling a
category scorer with an empty ingredient list returns a result object — with
`status = "success"` (as for every call), not `"error"` — rather than
raising; the `status: "error"` object for empty input is produced by the
upstream ingredient parser / analysis wrappers. -/
theorem C3_scorers_total_success (profile : UserProfile) (risks : RisksMap) :
    (calculate_food_scores profile risks []).status = "success" ∧
    (calculate_cosmetics_scores profile risks []).status = "success" ∧
    (calculate_household_scores profile risks []).status = "success" ∧
    (∀ ingredients : List String,
      (calculate_food_scores profile risks ingredients).status = "success" ∧
      (calculate_cosmetics_scores profile risks ingredients).status = "success" ∧
      (calculate_household_scores profile risks ingredients).status = "success") :=
  ⟨rfl, rfl, rfl, fun _ => ⟨rfl, rfl, rfl⟩⟩

/-- Claim C4: the risk-tag rule is NOT gated by the `matched` flag.  At the
failing input — food profile strictly avoiding `"salt"`, product `["salt"]`
with risk tag `high_salt` — the ingredient takes the critical strict-avoid
branch (safety 0) AND still receives the risk-tag sensitivity penalty
(sensitivity 90 instead of 100), contradicting first-match-wins; likewise for
the cosmetics scorer with a strict-avoid `"fragrance"` carrying the
`fragrance` irritant tag. -/
theorem C4_tag_rule_not_gated :
    ((calculate_food_scores { food_strict_avoid := [.ofDict "salt" "allergen"] }
        [("salt", ["high_salt"])] ["salt"]).safety_score = 0 ∧
      (calculate_food_scores { food_strict_avoid := [.ofDict "salt" "allergen"] }
        [("salt", ["high_salt"])] ["salt"]).has_strict_allergen_explicit = true ∧
      (calculate_food_scores { food_strict_avoid := [.ofDict "salt" "allergen"] }
        [("salt", ["high_salt"])] ["salt"]).sensitivity_score = 90 ∧
      (calculate_food_scores { food_strict_avoid := [.ofDict "salt" "allergen"] }
        [("salt", ["high_salt"])] ["salt"]).generic_risks =
        [{ ingredient := "salt", reason := "risk tag: high_salt",
           rtype := "risk_tag", category := "food" }]) ∧
    ((calculate_cosmetics_scores { strict_avoid := [.ofDict "fragrance" "allergen"] }
        [("fragrance", ["fragrance"])] ["fragrance"]).safety_score = 0 ∧
      (calculate_cosmetics_scores { strict_avoid := [.ofDict "fragrance" "allergen"] }
        [("fragrance", ["fragrance"])] ["fragrance"]).sensitivity_score = 90) := by
  decide

/-! # Normalization membership lemmas -/

/-- Characterization of membership in the food/cosmetics normalized key list,
generalized over the fold accumulator. -/
theorem strictAvoidKeys_mem_aux (items : List AvoidItem) (acc : List String)
    (k : String) :
    k ∈ items.foldl
        (fun acc item =>
          match foodItemKey item with
          | none => acc
          | some k2 => if acc.contains k2 then acc else acc ++ [k2]) acc ↔
      (k ∈ acc ∨ ∃ item ∈ items, foodItemKey item = some k) := by
  induction items generalizing acc with
  | nil => simp
  | cons x xs ih =>
    rw [List.foldl_cons]
    rcases hx : foodItemKey x with _ | k2
    · dsimp only
      rw [ih]
      constructor
      · rintro (h | ⟨item, him, hkey⟩)
        · exact Or.inl h
        · exact Or.inr ⟨item, List.mem_cons_of_mem x him, hkey⟩
      · rintro (h | ⟨item, him, hkey⟩)
        · exact Or.inl h
        · rcases List.mem_cons.mp him with rfl | him2
          · rw [hx] at hkey; cases hkey
          · exact Or.inr ⟨item, him2, hkey⟩
    · dsimp only
      by_cases hc : acc.contains k2 = true
      · rw [if_pos hc, ih]
        constructor
        · rintro (h | ⟨item, him, hkey⟩)
          · exact Or.inl h
          · exact Or.inr ⟨item, List.mem_cons_of_mem x him, hkey⟩
        · rintro (h | ⟨item, him, hkey⟩)
          · exact Or.inl h
          · rcases List.mem_cons.mp him with rfl | him2
            · rw [hx] at hkey
              injection hkey with hk
              subst hk
              exact Or.inl (by simpa using hc)
            · exact Or.inr ⟨item, him2, hkey⟩
      · rw [if_neg hc, ih]
        constructor
        · rintro (h | ⟨item, him, hkey⟩)
          · rcases List.mem_append.mp h with h2 | h2
            · exact Or.inl h2
            · have hk : k = k2 := by simpa using h2
              subst hk
              exact Or.inr ⟨x, List.mem_cons_self x xs, hx⟩
          · exact Or.inr ⟨item, List.mem_cons_of_mem x him, hkey⟩
        · rintro (h | ⟨item, him, hkey⟩)
          · exact Or.inl (List.mem_append.mpr (Or.inl h))
          · rcases List.mem_cons.mp him with rfl | him2
            · rw [hx] at hkey
              injection hkey with hk
              subst hk
              exact Or.inl (List.mem_append.mpr (Or.inr (by simp)))
            · exact Or.inr ⟨item, him2, hkey⟩

/-- Membership in `strictAvoidKeys`: exactly the non-skipped normalized keys
of the avoid-list items. -/
theorem mem_strictAvoidKeys (items : List AvoidItem) (k : String) :
    k ∈ strictAvoidKeys items ↔ ∃ item ∈ items, foodItemKey item = some k := by
  have h := strictAvoidKeys_mem_aux items [] k
  simpa [strictAvoidKeys] using h

/-- Characterization of membership in the household normalized key list,
generalized over the fold accumulator. -/
theorem householdStrictKeys_mem_aux (items : List AvoidItem) (acc : List String)
    (k : String) :
    k ∈ items.foldl
        (fun acc item =>
          let k2 := householdItemKey item
          if acc.contains k2 then acc else acc ++ [k2]) acc ↔
      (k ∈ acc ∨ ∃ item ∈ items, householdItemKey item = k) := by
  induction items generalizing acc with
  | nil => simp
  | cons x xs ih =>
    rw [List.foldl_cons]
    by_cases hc : acc.contains (householdItemKey x) = true
    · rw [if_pos hc, ih]
      constructor
      · rintro (h | ⟨item, him, hkey⟩)
        · exact Or.inl h
        · exact Or.inr ⟨item, List.mem_cons_of_mem x him, hkey⟩
      · rintro (h | ⟨item, him, hkey⟩)
        · exact Or.inl h
        · rcases List.mem_cons.mp him with rfl | him2
          · subst hkey
            exact Or.inl (by simpa using hc)
          · exact Or.inr ⟨item, him2, hkey⟩
    · rw [if_neg hc, ih]
      constructor
      · rintro (h | ⟨item, him, hkey⟩)
        · rcases List.mem_append.mp h with h2 | h2
          · exact Or.inl h2
          · have hk : k = householdItemKey x := by simpa using h2
            subst hk
            exact Or.inr ⟨x, List.mem_cons_self x xs, rfl⟩
        · exact Or.inr ⟨item, List.mem_cons_of_mem x him, hkey⟩
      · rintro (h | ⟨item, him, hkey⟩)
        · exact Or.inl (List.mem_append.mpr (Or.inl h))
        · rcases List.mem_cons.mp him with rfl | him2
          · subst hkey
            exact Or.inl (List.mem_append.mpr (Or.inr (by simp)))
          · exact Or.inr ⟨item, him2, hkey⟩

/-- Membership in `householdStrictKeys`: exactly the normalized keys of the
avoid-list items (including the empty string). -/
theorem mem_householdStrictKeys (items : List AvoidItem) (k : String) :
    k ∈ householdStrictKeys items ↔ ∃ item ∈ items, householdItemKey item = k := by
  have h := householdStrictKeys_mem_aux items [] k
  simpa [householdStrictKeys] using h

/-! # Field-transport lemmas for the food scorer -/

/-- The risk-tag rule leaves every field except the sensitivity score, the
sensitivity issues and the generic risks unchanged. -/
theorem foodTagRule_fields (tags : List String) (ing : String) (st : FoodState) :
    (foodTagRule tags ing st).safety_score = st.safety_score ∧
    (foodTagRule tags ing st).final_cap = st.final_cap ∧
    (foodTagRule tags ing st).has_strict_allergen_explicit =
      st.has_strict_allergen_explicit ∧
    (foodTagRule tags ing st).has_strict_allergen_traces =
      st.has_strict_allergen_traces ∧
    (foodTagRule tags ing st).match_score = st.match_score ∧
    (foodTagRule tags ing st).from_profile_match = st.from_profile_match := by
  unfold foodTagRule
  split <;> exact ⟨rfl, rfl, rfl, rfl, rfl, rfl⟩

/-- The food positive rule changes only the match score. -/
theorem foodPositiveRule_fields (il : String) (st : FoodState) :
    (foodPositiveRule il st).safety_score = st.safety_score ∧
    (foodPositiveRule il st).final_cap = st.final_cap ∧
    (foodPositiveRule il st).has_strict_allergen_explicit =
      st.has_strict_allergen_explicit ∧
    (foodPositiveRule il st).has_strict_allergen_traces =
      st.has_strict_allergen_traces ∧
    (foodPositiveRule il st).sensitivity_score = st.sensitivity_score ∧
    (foodPositiveRule il st).from_profile_match = st.from_profile_match := by
  unfold foodPositiveRule
  split <;> exact ⟨rfl, rfl, rfl, rfl, rfl, rfl⟩

/-- The safety score, cap, allergen flags and profile findings of a whole food
loop iteration are those produced by the cascade: the risk-tag and positive
rules never touch them. -/
theorem foodStep_strict_fields (ks ps : List String) (risks : RisksMap)
    (st : FoodState) (i : String) :
    (foodStep ks ps risks st i).safety_score =
      (foodCascade ks ps i (pyLower i) st).safety_score ∧
    (foodStep ks ps risks st i).final_cap =
      (foodCascade ks ps i (pyLower i) st).final_cap ∧
    (foodStep ks ps risks st i).has_strict_allergen_explicit =
      (foodCascade ks ps i (pyLower i) st).has_strict_allergen_explicit ∧
    (foodStep ks ps risks st i).has_strict_allergen_traces =
      (foodCascade ks ps i (pyLower i) st).has_strict_allergen_traces ∧
    (foodStep ks ps risks st i).from_profile_match =
      (foodCascade ks ps i (pyLower i) st).from_profile_match := by
  obtain ⟨t1, t2, t3, t4, _, t6⟩ :=
    foodTagRule_fields (risksGet risks i) i (foodCascade ks ps i (pyLower i) st)
  obtain ⟨p1, p2, p3, p4, _, p6⟩ :=
    foodPositiveRule_fields (pyLower i)
      (foodTagRule (risksGet risks i) i (foodCascade ks ps i (pyLower i) st))
  exact ⟨p1.trans t1, p2.trans t2, p3.trans t3, p4.trans t4, p6.trans t6⟩

/-! # Food strict-avoid hit and preservation lemmas -/

/-- If some nonempty strict key matches the (lowercased) ingredient and it
carries no traces marker, the food cascade takes the explicit-allergen
branch. -/
theorem foodCascade_explicit_hit (ks ps : List String) (st : FoodState)
    (ing il : String)
    (hfind : (List.find? (fun k => (k != "") && pyMatch k il) ks).isSome = true)
    (htr : isTraces il = false) :
    (foodCascade ks ps ing il st).safety_score = 0 ∧
    (foodCascade ks ps ing il st).final_cap = min st.final_cap 15 ∧
    (foodCascade ks ps ing il st).has_strict_allergen_explicit = true := by
  obtain ⟨k0, hk0⟩ := Option.isSome_iff_exists.mp hfind
  unfold foodCascade
  rw [hk0]
  dsimp only
  unfold foodStrictApply
  rw [if_pos htr]
  exact ⟨rfl, rfl, rfl⟩

/-- If some nonempty strict key matches and the ingredient carries a traces
marker, the food cascade takes the traces branch. -/
theorem foodCascade_traces_hit (ks ps : List String) (st : FoodState)
    (ing il : String)
    (hfind : (List.find? (fun k => (k != "") && pyMatch k il) ks).isSome = true)
    (htr : isTraces il = true) :
    (foodCascade ks ps ing il st).safety_score = min st.safety_score 20 ∧
    (foodCascade ks ps ing il st).final_cap = min st.final_cap 40 ∧
    (foodCascade ks ps ing il st).has_strict_allergen_traces = true := by
  obtain ⟨k0, hk0⟩ := Option.isSome_iff_exists.mp hfind
  unfold foodCascade
  rw [hk0]
  dsimp only
  unfold foodStrictApply
  rw [if_neg (by simp [htr])]
  exact ⟨rfl, rfl, rfl⟩

/-- The food cascade preserves an established explicit-allergen verdict. -/
theorem foodCascade_preserves_zero15 (ks ps : List String) (st : FoodState)
    (ing il : String)
    (h : st.safety_score = 0 ∧ st.final_cap ≤ 15 ∧
      st.has_strict_allergen_explicit = true) :
    (foodCascade ks ps ing il st).safety_score = 0 ∧
    (foodCascade ks ps ing il st).final_cap ≤ 15 ∧
    (foodCascade ks ps ing il st).has_strict_allergen_explicit = true := by
  obtain ⟨h1, h2, h3⟩ := h
  unfold foodCascade foodStrictApply
  split
  · split
    · exact ⟨rfl, by dsimp; omega, rfl⟩
    · exact ⟨by dsimp; omega, by dsimp; omega, by dsimp; exact h3⟩
  · split
    · exact ⟨h1, h2, h3⟩
    · split
      · exact ⟨h1, h2, h3⟩
      · exact ⟨h1, h2, h3⟩

/-- The food cascade preserves `safety ≤ 20 ∧ cap ≤ 40`. -/
theorem foodCascade_preserves_le20_40 (ks ps : List String) (st : FoodState)
    (ing il : String)
    (h : st.safety_score ≤ 20 ∧ st.final_cap ≤ 40) :
    (foodCascade ks ps ing il st).safety_score ≤ 20 ∧
    (foodCascade ks ps ing il st).final_cap ≤ 40 := by
  obtain ⟨h1, h2⟩ := h
  unfold foodCascade foodStrictApply
  split
  · split
    · exact ⟨by dsimp; omega, by dsimp; omega⟩
    · exact ⟨by dsimp; omega, by dsimp; omega⟩
  · split
    · exact ⟨h1, h2⟩
    · split
      · exact ⟨h1, h2⟩
      · exact ⟨h1, h2⟩

/-- One food loop iteration preserves an established explicit-allergen
verdict. -/
theorem foodStep_preserves_zero15 (ks ps : List String) (risks : RisksMap)
    (st : FoodState) (i : String)
    (h : st.safety_score = 0 ∧ st.final_cap ≤ 15 ∧
      st.has_strict_allergen_explicit = true) :
    (foodStep ks ps risks st i).safety_score = 0 ∧
    (foodStep ks ps risks st i).final_cap ≤ 15 ∧
    (foodStep ks ps risks st i).has_strict_allergen_explicit = true := by
  obtain ⟨f1, f2, f3, _, _⟩ := foodStep_strict_fields ks ps risks st i
  have hc := foodCascade_preserves_zero15 ks ps st i (pyLower i) h
  exact ⟨f1.trans hc.1, f2.trans_le hc.2.1, f3.trans hc.2.2⟩

/-- One food loop iteration preserves `safety ≤ 20 ∧ cap ≤ 40`. -/
theorem foodStep_preserves_le20_40 (ks ps : List String) (risks : RisksMap)
    (st : FoodState) (i : String)
    (h : st.safety_score ≤ 20 ∧ st.final_cap ≤ 40) :
    (foodStep ks ps risks st i).safety_score ≤ 20 ∧
    (foodStep ks ps risks st i).final_cap ≤ 40 := by
  obtain ⟨f1, f2, _, _, _⟩ := foodStep_strict_fields ks ps risks st i
  have hc := foodCascade_preserves_le20_40 ks ps st i (pyLower i) h
  exact ⟨f1.trans_le hc.1, f2.trans_le hc.2⟩

/-- A food loop iteration on an explicitly-matching ingredient establishes the
explicit-allergen verdict, whatever the incoming state. -/
theorem foodStep_explicit_hit (ks ps : List String) (risks : RisksMap)
    (st : FoodState) (i : String)
    (hfind : (List.find? (fun k => (k != "") && pyMatch k (pyLower i)) ks).isSome
      = true)
    (htr : isTraces (pyLower i) = false) :
    (foodStep ks ps risks st i).safety_score = 0 ∧
    (foodStep ks ps risks st i).final_cap ≤ 15 ∧
    (foodStep ks ps risks st i).has_strict_allergen_explicit = true := by
  obtain ⟨f1, f2, f3, _, _⟩ := foodStep_strict_fields ks ps risks st i
  obtain ⟨c1, c2, c3⟩ := foodCascade_explicit_hit ks ps st i (pyLower i) hfind htr
  exact ⟨f1.trans c1, f2.trans_le (c2.trans_le (min_le_right _ _)), f3.trans c3⟩

/-- A food loop iteration on a traces-matching ingredient drives safety to at
most 20 and the cap to at most 40, and raises the traces flag. -/
theorem foodStep_traces_hit (ks ps : List String) (risks : RisksMap)
    (st : FoodState) (i : String)
    (hfind : (List.find? (fun k => (k != "") && pyMatch k (pyLower i)) ks).isSome
      = true)
    (htr : isTraces (pyLower i) = true) :
    (foodStep ks ps risks st i).safety_score ≤ 20 ∧
    (foodStep ks ps risks st i).final_cap ≤ 40 ∧
    (foodStep ks ps risks st i).has_strict_allergen_traces = true := by
  obtain ⟨f1, f2, _, f4, _⟩ := foodStep_strict_fields ks ps risks st i
  obtain ⟨c1, c2, c3⟩ := foodCascade_traces_hit ks ps st i (pyLower i) hfind htr
  exact ⟨f1.trans_le (c1.trans_le (min_le_right _ _)),
    f2.trans_le (c2.trans_le (min_le_right _ _)), f4.trans c3⟩

/-! # Claim theorems: food strict-avoid scenarios -/

/-- Claim C1: for every profile whose `food_strict_avoid` contains an entry
normalizing to a nonempty key, and every ingredient list containing an
ingredient that matches that key by bidirectional substring containment
without any traces marker, the food scorer returns `safety_score = 0`,
`final_cap ≤ 15` and `has_strict_allergen_explicit = true`. -/
theorem C1_food_strict_explicit (profile : UserProfile) (risks : RisksMap)
    (ingredients : List String) (item : AvoidItem) (k i : String)
    (hitem : item ∈ profile.food_strict_avoid)
    (hkey : foodItemKey item = some k) (hne : k ≠ "")
    (hi : i ∈ ingredients)
    (hmatch : pyMatch k (pyLower i) = true)
    (htr : isTraces (pyLower i) = false) :
    (calculate_food_scores profile risks ingredients).safety_score = 0 ∧
    (calculate_food_scores profile risks ingredients).final_cap ≤ 15 ∧
    (calculate_food_scores profile risks ingredients).has_strict_allergen_explicit
      = true := by
  have hkmem : k ∈ strictAvoidKeys profile.food_strict_avoid :=
    (mem_strictAvoidKeys _ _).mpr ⟨item, hitem, hkey⟩
  have hfind : (List.find? (fun k2 => (k2 != "") && pyMatch k2 (pyLower i))
      (strictAvoidKeys profile.food_strict_avoid)).isSome = true :=
    List.find?_isSome.mpr ⟨k, hkmem, by simp [hmatch, hne]⟩
  obtain ⟨pre, post, rfl⟩ := List.append_of_mem hi
  have hloop :
      (((pre ++ i :: post).foldl
        (fun st j => foodStep (strictAvoidKeys profile.food_strict_avoid)
          (preferAvoidList profile.food_prefer_avoid) risks st j)
        ({} : FoodState)).safety_score = 0 ∧
      ((pre ++ i :: post).foldl
        (fun st j => foodStep (strictAvoidKeys profile.food_strict_avoid)
          (preferAvoidList profile.food_prefer_avoid) risks st j)
        ({} : FoodState)).final_cap ≤ 15 ∧
      ((pre ++ i :: post).foldl
        (fun st j => foodStep (strictAvoidKeys profile.food_strict_avoid)
          (preferAvoidList profile.food_prefer_avoid) risks st j)
        ({} : FoodState)).has_strict_allergen_explicit = true) := by
    rw [List.foldl_append, List.foldl_cons]
    refine foldl_preserves
      (P := fun st : FoodState => st.safety_score = 0 ∧ st.final_cap ≤ 15 ∧
        st.has_strict_allergen_explicit = true)
      post (fun st j _ h => foodStep_preserves_zero15 _ _ _ st j h) _ ?_
    exact foodStep_explicit_hit _ _ _ _ i hfind htr
  have hmem := apply_reactions_preserves
    (P := fun sc => sc.1 = 0 ∧ sc.2 ≤ 15)
    (fun e il sc h => reactionStep_zero_cap e il sc h)
    profile (pre ++ i :: post)
    ((pre ++ i :: post).foldl
      (fun st j => foodStep (strictAvoidKeys profile.food_strict_avoid)
        (preferAvoidList profile.food_prefer_avoid) risks st j)
      ({} : FoodState)).safety_score
    ((pre ++ i :: post).foldl
      (fun st j => foodStep (strictAvoidKeys profile.food_strict_avoid)
        (preferAvoidList profile.food_prefer_avoid) risks st j)
      ({} : FoodState)).final_cap
    ⟨hloop.1, hloop.2.1⟩
  exact ⟨hmem.1, hmem.2, hloop.2.2⟩

/-- Claim C1 witness: Scenario A — profile strictly avoiding `"hazelnut"`
(allergen entry), product `["hazelnut"]`. -/
theorem C1_food_strict_explicit_witness :
    (calculate_food_scores
      { food_strict_avoid := [AvoidItem.ofDict "hazelnut" "allergen"] } []
      ["hazelnut"]).safety_score = 0 ∧
    (calculate_food_scores
      { food_strict_avoid := [AvoidItem.ofDict "hazelnut" "allergen"] } []
      ["hazelnut"]).final_cap ≤ 15 ∧
    (calculate_food_scores
      { food_strict_avoid := [AvoidItem.ofDict "hazelnut" "allergen"] } []
      ["hazelnut"]).has_strict_allergen_explicit = true :=
  C1_food_strict_explicit _ _ _ (AvoidItem.ofDict "hazelnut" "allergen")
    "hazelnut" "hazelnut" (by decide) (by decide) (by decide) (by decide)
    (by decide) (by decide)

/-- Claim C7 counterexample: with profile strictly avoiding `"hazelnut"` and
product `["hazelnut", "may contain traces of hazelnut"]`, an ingredient
matches the strict-avoid entry in traces form (the traces flag is raised), yet
`safety_score` is 0, not exactly 20 — the explicit match on the other
ingredient drives it lower. -/
theorem C7_traces_counterexample :
    (pyMatch "hazelnut" (pyLower "may contain traces of hazelnut") = true ∧
      isTraces (pyLower "may contain traces of hazelnut") = true ∧
      foodItemKey (AvoidItem.ofDict "hazelnut" "allergen") = some "hazelnut" ∧
      (calculate_food_scores
        { food_strict_avoid := [AvoidItem.ofDict "hazelnut" "allergen"] } []
        ["hazelnut", "may contain traces of hazelnut"]).has_strict_allergen_traces
        = true) ∧
    ¬((calculate_food_scores
        { food_strict_avoid := [AvoidItem.ofDict "hazelnut" "allergen"] } []
        ["hazelnut", "may contain traces of hazelnut"]).safety_score = 20) := by
  decide

/-- Claim C7 (amended): a traces-form strict-avoid match forces
`safety_score ≤ 20` (not exactly 20: an explicit match or a reaction-memory
match can drive it lower) and `final_cap ≤ 40`; on Scenario B itself — where
the traces match is the only penalty — safety is exactly 20 and the cap
exactly 40. -/
theorem C7_food_traces_amended :
    (∀ (profile : UserProfile) (risks : RisksMap) (ingredients : List String)
      (item : AvoidItem) (k i : String),
      item ∈ profile.food_strict_avoid →
      foodItemKey item = some k → k ≠ "" →
      i ∈ ingredients →
      pyMatch k (pyLower i) = true →
      isTraces (pyLower i) = true →
      (calculate_food_scores profile risks ingredients).safety_score ≤ 20 ∧
      (calculate_food_scores profile risks ingredients).final_cap ≤ 40) ∧
    ((calculate_food_scores
        { food_strict_avoid := [AvoidItem.ofDict "hazelnut" "allergen"] } []
        ["may contain traces of hazelnut"]).safety_score = 20 ∧
      (calculate_food_scores
        { food_strict_avoid := [AvoidItem.ofDict "hazelnut" "allergen"] } []
        ["may contain traces of hazelnut"]).final_cap = 40 ∧
      (calculate_food_scores
        { food_strict_avoid := [AvoidItem.ofDict "hazelnut" "allergen"] } []
        ["may contain traces of hazelnut"]).has_strict_allergen_traces = true) := by
  constructor
  · intro profile risks ingredients item k i hitem hkey hne hi hmatch htr
    have hkmem : k ∈ strictAvoidKeys profile.food_strict_avoid :=
      (mem_strictAvoidKeys _ _).mpr ⟨item, hitem, hkey⟩
    have hfind : (List.find? (fun k2 => (k2 != "") && pyMatch k2 (pyLower i))
        (strictAvoidKeys profile.food_strict_avoid)).isSome = true :=
      List.find?_isSome.mpr ⟨k, hkmem, by simp [hmatch, hne]⟩
    obtain ⟨pre, post, rfl⟩ := List.append_of_mem hi
    have hloop :
        (((pre ++ i :: post).foldl
          (fun st j => foodStep (strictAvoidKeys profile.food_strict_avoid)
            (preferAvoidList profile.food_prefer_avoid) risks st j)
          ({} : FoodState)).safety_score ≤ 20 ∧
        ((pre ++ i :: post).foldl
          (fun st j => foodStep (strictAvoidKeys profile.food_strict_avoid)
            (preferAvoidList profile.food_prefer_avoid) risks st j)
          ({} : FoodState)).final_cap ≤ 40) := by
      rw [List.foldl_append, List.foldl_cons]
      refine foldl_preserves
        (P := fun st : FoodState => st.safety_score ≤ 20 ∧ st.final_cap ≤ 40)
        post (fun st j _ h => foodStep_preserves_le20_40 _ _ _ st j h) _ ?_
      have h := foodStep_traces_hit (strictAvoidKeys profile.food_strict_avoid)
        (preferAvoidList profile.food_prefer_avoid) risks
        (pre.foldl
          (fun st j => foodStep (strictAvoidKeys profile.food_strict_avoid)
            (preferAvoidList profile.food_prefer_avoid) risks st j)
          ({} : FoodState)) i hfind htr
      exact ⟨h.1, h.2.1⟩
    have hmem := apply_reactions_preserves
      (P := fun sc => sc.1 ≤ 20 ∧ sc.2 ≤ 40)
      (fun e il sc h => reactionStep_le20_40 e il sc h)
      profile (pre ++ i :: post)
      ((pre ++ i :: post).foldl
        (fun st j => foodStep (strictAvoidKeys profile.food_strict_avoid)
          (preferAvoidList profile.food_prefer_avoid) risks st j)
        ({} : FoodState)).safety_score
      ((pre ++ i :: post).foldl
        (fun st j => foodStep (strictAvoidKeys profile.food_strict_avoid)
          (preferAvoidList profile.food_prefer_avoid) risks st j)
        ({} : FoodState)).final_cap
      ⟨hloop.1, hloop.2⟩
    exact ⟨hmem.1, hmem.2⟩
  · exact ⟨by decide, by decide, by decide⟩

/-- Claim C7 witness for the amended statement: Scenario B. -/
theorem C7_food_traces_amended_witness :
    (calculate_food_scores
      { food_strict_avoid := [AvoidItem.ofDict "hazelnut" "allergen"] } []
      ["may contain traces of hazelnut"]).safety_score ≤ 20 ∧
    (calculate_food_scores
      { food_strict_avoid := [AvoidItem.ofDict "hazelnut" "allergen"] } []
      ["may contain traces of hazelnut"]).final_cap ≤ 40 :=
  C7_food_traces_amended.1 _ _ _ (AvoidItem.ofDict "hazelnut" "allergen")
    "hazelnut" "may contain traces of hazelnut" (by decide) (by decide)
    (by decide) (by decide) (by decide) (by decide)

/-! # Cosmetics lemmas: safety is only touched by strict-avoid -/

/-- The cosmetics irritant-tag rule leaves safety, cap and match unchanged. -/
theorem cosmeticsTagRule_fields (tags : List String) (ing : String)
    (st : CosmeticsState) :
    (cosmeticsTagRule tags ing st).safety_score = st.safety_score ∧
    (cosmeticsTagRule tags ing st).final_cap = st.final_cap ∧
    (cosmeticsTagRule tags ing st).match_score = st.match_score := by
  unfold cosmeticsTagRule
  split <;> exact ⟨rfl, rfl, rfl⟩

/-- The cosmetics irritant-tag rule can only keep or lower the sensitivity
score (and keeps it nonnegative). -/
theorem cosmeticsTagRule_sens (tags : List String) (ing : String)
    (st : CosmeticsState) :
    (cosmeticsTagRule tags ing st).sensitivity_score = st.sensitivity_score ∨
    (cosmeticsTagRule tags ing st).sensitivity_score =
      max 0 (st.sensitivity_score - 10) := by
  unfold cosmeticsTagRule
  split
  · exact Or.inr rfl
  · exact Or.inl rfl

/-- The cosmetics positive rule changes only the match score. -/
theorem cosmeticsPositiveRule_fields (ht : String) (hg : List String)
    (il : String) (st : CosmeticsState) :
    (cosmeticsPositiveRule ht hg il st).safety_score = st.safety_score ∧
    (cosmeticsPositiveRule ht hg il st).final_cap = st.final_cap ∧
    (cosmeticsPositiveRule ht hg il st).sensitivity_score =
      st.sensitivity_score := by
  unfold cosmeticsPositiveRule
  split <;> exact ⟨rfl, rfl, rfl⟩

/-- With no strict-avoid keys, the cosmetics cascade keeps safety at 100 and
the sensitivity score within `[0, B]`. -/
theorem cosmeticsCascade_no_strict (sens : List String) (ing il : String)
    (st : CosmeticsState) (B : Int)
    (h : st.safety_score = 100 ∧ 0 ≤ st.sensitivity_score ∧
      st.sensitivity_score ≤ B) :
    (cosmeticsCascade [] sens ing il st).safety_score = 100 ∧
    0 ≤ (cosmeticsCascade [] sens ing il st).sensitivity_score ∧
    (cosmeticsCascade [] sens ing il st).sensitivity_score ≤ B := by
  obtain ⟨h1, h2, h3⟩ := h
  unfold cosmeticsCascade
  rw [List.find?_nil]
  dsimp only
  split
  · exact ⟨by dsimp; exact h1, by dsimp; omega, by dsimp; omega⟩
  · split
    · exact ⟨by dsimp; exact h1, by dsimp; omega, by dsimp; omega⟩
    · exact ⟨h1, h2, h3⟩

/-- With no strict-avoid keys and a matching sensitivity entry, the cosmetics
cascade keeps safety unchanged and drops the sensitivity score by 20
(floored at 0). -/
theorem cosmeticsCascade_sens_hit (sens : List String) (ing il : String)
    (st : CosmeticsState)
    (hfind : (List.find?
      (fun s0 => (lowerStrip s0 != "") && pyMatch (lowerStrip s0) il)
      sens).isSome = true) :
    (cosmeticsCascade [] sens ing il st).safety_score = st.safety_score ∧
    (cosmeticsCascade [] sens ing il st).sensitivity_score =
      max 0 (st.sensitivity_score - 20) := by
  obtain ⟨s0, hs0⟩ := Option.isSome_iff_exists.mp hfind
  unfold cosmeticsCascade
  rw [List.find?_nil]
  dsimp only
  rw [hs0]
  exact ⟨rfl, rfl⟩

/-- With no strict-avoid keys, a cosmetics loop iteration keeps safety at 100
and the sensitivity score within `[0, B]`. -/
theorem cosmeticsStep_no_strict (ks sens : List String) (ht : String)
    (hg : List String) (risks : RisksMap) (st : CosmeticsState) (i : String)
    (hks : ks = []) (B : Int)
    (h : st.safety_score = 100 ∧ 0 ≤ st.sensitivity_score ∧
      st.sensitivity_score ≤ B) :
    (cosmeticsStep ks sens ht hg risks st i).safety_score = 100 ∧
    0 ≤ (cosmeticsStep ks sens ht hg risks st i).sensitivity_score ∧
    (cosmeticsStep ks sens ht hg risks st i).sensitivity_score ≤ B := by
  subst hks
  have hcas := cosmeticsCascade_no_strict sens i (pyLower i) st B h
  obtain ⟨t1, _, _⟩ :=
    cosmeticsTagRule_fields (risksGet risks i) i
      (cosmeticsCascade [] sens i (pyLower i) st)
  have ht2 := cosmeticsTagRule_sens (risksGet risks i) i
    (cosmeticsCascade [] sens i (pyLower i) st)
  obtain ⟨p1, _, p3⟩ :=
    cosmeticsPositiveRule_fields ht hg (pyLower i)
      (cosmeticsTagRule (risksGet risks i) i
        (cosmeticsCascade [] sens i (pyLower i) st))
  simp only [cosmeticsStep]
  refine ⟨p1.trans (t1.trans hcas.1), ?_, ?_⟩ <;>
    rcases ht2 with h2 | h2 <;> rw [p3, h2] <;> omega

/-- With no strict-avoid keys, a cosmetics loop iteration on an ingredient
matching a sensitivity entry keeps safety at 100 and drives the sensitivity
score to at most 80. -/
theorem cosmeticsStep_sens_hit (ks sens : List String) (ht : String)
    (hg : List String) (risks : RisksMap) (st : CosmeticsState) (i : String)
    (hks : ks = [])
    (hfind : (List.find?
      (fun s0 => (lowerStrip s0 != "") && pyMatch (lowerStrip s0) (pyLower i))
      sens).isSome = true)
    (h : st.safety_score = 100 ∧ 0 ≤ st.sensitivity_score ∧
      st.sensitivity_score ≤ 100) :
    (cosmeticsStep ks sens ht hg risks st i).safety_score = 100 ∧
    0 ≤ (cosmeticsStep ks sens ht hg risks st i).sensitivity_score ∧
    (cosmeticsStep ks sens ht hg risks st i).sensitivity_score ≤ 80 := by
  subst hks
  obtain ⟨h1, h2, h3⟩ := h
  have hcas := cosmeticsCascade_sens_hit sens i (pyLower i) st hfind
  obtain ⟨t1, _, _⟩ :=
    cosmeticsTagRule_fields (risksGet risks i) i
      (cosmeticsCascade [] sens i (pyLower i) st)
  have ht2 := cosmeticsTagRule_sens (risksGet risks i) i
    (cosmeticsCascade [] sens i (pyLower i) st)
  obtain ⟨p1, _, p3⟩ :=
    cosmeticsPositiveRule_fields ht hg (pyLower i)
      (cosmeticsTagRule (risksGet risks i) i
        (cosmeticsCascade [] sens i (pyLower i) st))
  simp only [cosmeticsStep]
  refine ⟨p1.trans (t1.trans (hcas.1.trans h1)), ?_, ?_⟩ <;>
    rcases ht2 with hs | hs <;> rw [p3, hs, hcas.2] <;> omega

/-! # Claim theorems: cosmetics -/

/-- Claim C9 counterexample: a profile with empty `strict_avoid` and a
matching cosmetics sensitivity (`"fragrance"`) can still end with
`safety_score = 0` — the reaction-memory adjuster, not only strict-avoid, can
move safety off 100 (here a severe repeated reaction on `"fragrance"`). -/
theorem C9_cosmetics_counterexample :
    (({ cosmetics_sensitivities := ["fragrance"],
        repeated_negative_reactions :=
          [{ ingredient := some "fragrance", frequency := some "always" }] } :
        UserProfile).strict_avoid = [] ∧
      pyMatch (lowerStrip "fragrance") (pyLower "fragrance") = true ∧
      (calculate_cosmetics_scores
        { cosmetics_sensitivities := ["fragrance"],
          repeated_negative_reactions :=
            [{ ingredient := some "fragrance", frequency := some "always" }] }
        [] ["fragrance"]).sensitivity_score < 100) ∧
    ¬((calculate_cosmetics_scores
        { cosmetics_sensitivities := ["fragrance"],
          repeated_negative_reactions :=
            [{ ingredient := some "fragrance", frequency := some "always" }] }
        [] ["fragrance"]).safety_score = 100) := by
  decide

/-- Claim C9 (amended): in the cosmetics scorer's per-ingredient loop, safety
is never reduced by irritants — only a strict-avoid match can move it off 100
— but the reaction-memory adjuster can also lower it afterwards.  So for every
profile with empty `strict_avoid`, no reaction-memory entry matching any
ingredient, and a `cosmetics_sensitivities` entry matching some ingredient,
the result has `safety_score = 100` and `sensitivity_score < 100`. -/
theorem C9_cosmetics_amended (profile : UserProfile) (risks : RisksMap)
    (ingredients : List String)
    (hstrict : profile.strict_avoid = [])
    (hnoreact : ∀ i ∈ ingredients, ∀ e ∈ profile.repeated_negative_reactions,
      pyMatch (pyLower (e.ingredient.getD "")) (pyLower i) = false)
    (hsens : ∃ i ∈ ingredients, ∃ s0 ∈ profile.cosmetics_sensitivities,
      ((lowerStrip s0 != "") && pyMatch (lowerStrip s0) (pyLower i)) = true) :
    (calculate_cosmetics_scores profile risks ingredients).safety_score = 100 ∧
    (calculate_cosmetics_scores profile risks ingredients).sensitivity_score
      < 100 := by
  have hks : strictAvoidKeys profile.strict_avoid = [] := by rw [hstrict]; rfl
  obtain ⟨i, hi, s0, hs0, hcond⟩ := hsens
  have hfind : (List.find?
      (fun s1 => (lowerStrip s1 != "") && pyMatch (lowerStrip s1) (pyLower i))
      profile.cosmetics_sensitivities).isSome = true :=
    List.find?_isSome.mpr ⟨s0, hs0, hcond⟩
  obtain ⟨pre, post, rfl⟩ := List.append_of_mem hi
  have hpre := foldl_preserves
    (P := fun st : CosmeticsState => st.safety_score = 100 ∧
      0 ≤ st.sensitivity_score ∧ st.sensitivity_score ≤ 100)
    pre
    (fun st j _ h => cosmeticsStep_no_strict
      (strictAvoidKeys profile.strict_avoid) profile.cosmetics_sensitivities
      profile.hair_type profile.hair_goals risks st j hks 100 h)
    ({} : CosmeticsState) (by refine ⟨?_, ?_, ?_⟩ <;> decide)
  have hloop :
      (((pre ++ i :: post).foldl
        (fun st j => cosmeticsStep (strictAvoidKeys profile.strict_avoid)
          profile.cosmetics_sensitivities profile.hair_type profile.hair_goals
          risks st j) ({} : CosmeticsState)).safety_score = 100 ∧
      0 ≤ ((pre ++ i :: post).foldl
        (fun st j => cosmeticsStep (strictAvoidKeys profile.strict_avoid)
          profile.cosmetics_sensitivities profile.hair_type profile.hair_goals
          risks st j) ({} : CosmeticsState)).sensitivity_score ∧
      ((pre ++ i :: post).foldl
        (fun st j => cosmeticsStep (strictAvoidKeys profile.strict_avoid)
          profile.cosmetics_sensitivities profile.hair_type profile.hair_goals
          risks st j) ({} : CosmeticsState)).sensitivity_score ≤ 80) := by
    rw [List.foldl_append, List.foldl_cons]
    refine foldl_preserves
      (P := fun st : CosmeticsState => st.safety_score = 100 ∧
        0 ≤ st.sensitivity_score ∧ st.sensitivity_score ≤ 80)
      post
      (fun st j _ h => cosmeticsStep_no_strict
        (strictAvoidKeys profile.strict_avoid) profile.cosmetics_sensitivities
        profile.hair_type profile.hair_goals risks st j hks 80 h)
      _ ?_
    exact cosmeticsStep_sens_hit (strictAvoidKeys profile.strict_avoid)
      profile.cosmetics_sensitivities profile.hair_type profile.hair_goals
      risks _ i hks hfind hpre
  have hid := apply_reactions_no_match profile (pre ++ i :: post)
    ((pre ++ i :: post).foldl
      (fun st j => cosmeticsStep (strictAvoidKeys profile.strict_avoid)
        profile.cosmetics_sensitivities profile.hair_type profile.hair_goals
        risks st j) ({} : CosmeticsState)).safety_score
    ((pre ++ i :: post).foldl
      (fun st j => cosmeticsStep (strictAvoidKeys profile.strict_avoid)
        profile.cosmetics_sensitivities profile.hair_type profile.hair_goals
        risks st j) ({} : CosmeticsState)).final_cap
    (fun j hj e he => hnoreact j hj e he)
  exact ⟨(congrArg Prod.fst hid).trans hloop.1,
    lt_of_le_of_lt hloop.2.2 (by norm_num)⟩

/-- Claim C9 witness for the amended statement: Scenario C — sensitivities
`["fragrance"]`, product `["fragrance"]`, no strict avoid, no reactions. -/
theorem C9_cosmetics_amended_witness :
    (calculate_cosmetics_scores { cosmetics_sensitivities := ["fragrance"] } []
      ["fragrance"]).safety_score = 100 ∧
    (calculate_cosmetics_scores { cosmetics_sensitivities := ["fragrance"] } []
      ["fragrance"]).sensitivity_score < 100 :=
  C9_cosmetics_amended _ _ _ (by decide) (by decide)
    ⟨"fragrance", by decide, "fragrance", by decide, by decide⟩

/-! # Household lemmas -/

/-- The empty key matches every ingredient under bidirectional substring
containment. -/
theorem pyMatch_empty_left (b : String) : pyMatch "" b = true := by
  simp [pyMatch, pyIn]

/-- The household positive rule changes only the match score. -/
theorem householdPositiveRule_fields (il : String) (st : HouseholdState) :
    (householdPositiveRule il st).safety_score = st.safety_score ∧
    (householdPositiveRule il st).final_cap = st.final_cap ∧
    (householdPositiveRule il st).sensitivity_score = st.sensitivity_score ∧
    (householdPositiveRule il st).from_profile_match = st.from_profile_match ∧
    (householdPositiveRule il st).generic_risks = st.generic_risks := by
  unfold householdPositiveRule
  split <;> exact ⟨rfl, rfl, rfl, rfl, rfl⟩

/-- Any strict-avoid key match sends the household cascade into the critical
branch. -/
theorem householdCascade_strict_hit (ks sens : List String) (ing il : String)
    (st : HouseholdState)
    (hfind : (List.find? (fun k => pyMatch k il) ks).isSome = true) :
    householdCascade ks sens ing il st =
      { st with
        safety_score := 0
        final_cap := min st.final_cap 20
        from_profile_match := st.from_profile_match ++
          [⟨ing, "strict_avoid", "critical", "household"⟩] } := by
  obtain ⟨k0, hk0⟩ := Option.isSome_iff_exists.mp hfind
  unfold householdCascade
  rw [hk0]

/-- A household loop iteration whose ingredient matches a strict-avoid key
zeroes safety, caps at 20 and appends exactly one critical finding. -/
theorem householdStep_strict_hit (ks sens : List String) (st : HouseholdState)
    (j : String)
    (hfind : (List.find? (fun k => pyMatch k (pyLower j)) ks).isSome = true) :
    (householdStep ks sens st j).safety_score = 0 ∧
    (householdStep ks sens st j).final_cap = min st.final_cap 20 ∧
    (householdStep ks sens st j).from_profile_match =
      st.from_profile_match ++ [⟨j, "strict_avoid", "critical", "household"⟩] := by
  have hcas := householdCascade_strict_hit ks sens j (pyLower j) st hfind
  simp only [householdStep]
  rw [hcas]
  obtain ⟨q1, q2, _, q4, _⟩ := householdPositiveRule_fields (pyLower j)
    { st with
      safety_score := 0
      final_cap := min st.final_cap 20
      from_profile_match := st.from_profile_match ++
        [⟨j, "strict_avoid", "critical", "household"⟩] }
  exact ⟨q1, q2, q4⟩

/-- If every strict-avoid key matches every ingredient (as with the empty
key), the household loop records exactly one critical strict-avoid finding per
ingredient, and a non-empty list forces safety 0 and cap at most 20. -/
theorem householdLoop_empty_key (ks sens : List String)
    (hf : ∀ j : String, (List.find? (fun k => pyMatch k (pyLower j)) ks).isSome
      = true) :
    ∀ (l : List String) (st : HouseholdState),
      ((l.foldl (fun st j => householdStep ks sens st j) st).from_profile_match.length
        = st.from_profile_match.length + l.length) ∧
      (∀ f ∈ (l.foldl (fun st j => householdStep ks sens st j) st).from_profile_match,
        f ∈ st.from_profile_match ∨
          (f.ftype = "strict_avoid" ∧ f.severity = "critical")) ∧
      (l ≠ [] →
        (l.foldl (fun st j => householdStep ks sens st j) st).safety_score = 0 ∧
        (l.foldl (fun st j => householdStep ks sens st j) st).final_cap ≤ 20) := by
  intro l
  induction l with
  | nil =>
    intro st
    exact ⟨by simp, fun f hf2 => Or.inl hf2, fun h => absurd rfl h⟩
  | cons j l ih =>
    intro st
    rw [List.foldl_cons]
    obtain ⟨s1, s2, s3⟩ := householdStep_strict_hit ks sens st j (hf j)
    obtain ⟨ihlen, ihmem, ihsc⟩ := ih (householdStep ks sens st j)
    refine ⟨?_, ?_, ?_⟩
    · rw [ihlen, s3]
      simp
      omega
    · intro f hfmem
      rcases ihmem f hfmem with hin | hcrit
      · rw [s3] at hin
        rcases List.mem_append.mp hin with hin2 | hin2
        · exact Or.inl hin2
        · have : f = ⟨j, "strict_avoid", "critical", "household"⟩ := by
            simpa using hin2
          subst this
          exact Or.inr ⟨rfl, rfl⟩
      · exact Or.inr hcrit
    · intro _
      by_cases hl : l = []
      · subst hl
        exact ⟨s1, s2.trans_le (min_le_right _ _)⟩
      · exact ihsc hl

/-- With no strict-avoid keys, the household cascade keeps safety at 100 and
the sensitivity score within `[0, B]`. -/
theorem householdCascade_no_strict (sens : List String) (ing il : String)
    (st : HouseholdState) (B : Int)
    (h : st.safety_score = 100 ∧ 0 ≤ st.sensitivity_score ∧
      st.sensitivity_score ≤ B) :
    (householdCascade [] sens ing il st).safety_score = 100 ∧
    0 ≤ (householdCascade [] sens ing il st).sensitivity_score ∧
    (householdCascade [] sens ing il st).sensitivity_score ≤ B := by
  obtain ⟨h1, h2, h3⟩ := h
  unfold householdCascade
  rw [List.find?_nil]
  dsimp only
  split
  · simp only [List.any_nil]
    rw [if_neg (by simp)]
    exact ⟨by dsimp; exact h1, by dsimp; omega, by dsimp; omega⟩
  · split
    · exact ⟨by dsimp; exact h1, by dsimp; omega, by dsimp; omega⟩
    · split
      · exact ⟨by dsimp; exact h1, by dsimp; omega, by dsimp; omega⟩
      · exact ⟨h1, h2, h3⟩

/-- With no strict-avoid keys and an ingredient containing a `HOUSEHOLD_RISK`
key, the cascade takes the warning branch: safety untouched, sensitivity
dropped by 10 (floored at 0). -/
theorem householdCascade_risk_warn_hit (sens : List String) (ing il : String)
    (st : HouseholdState)
    (hfind : (List.find? (fun q => pyIn (pyLower q.1) il) HOUSEHOLD_RISK).isSome
      = true) :
    (householdCascade [] sens ing il st).safety_score = st.safety_score ∧
    (householdCascade [] sens ing il st).sensitivity_score =
      max 0 (st.sensitivity_score - 10) := by
  obtain ⟨p, hp⟩ := Option.isSome_iff_exists.mp hfind
  unfold householdCascade
  rw [List.find?_nil]
  dsimp only
  rw [hp]
  dsimp only
  simp only [List.any_nil]
  rw [if_neg (by simp)]
  exact ⟨rfl, rfl⟩

/-- With no strict-avoid keys, a household loop iteration keeps safety at 100
and the sensitivity score within `[0, B]`. -/
theorem householdStep_no_strict (ks sens : List String) (st : HouseholdState)
    (i : String) (hks : ks = []) (B : Int)
    (h : st.safety_score = 100 ∧ 0 ≤ st.sensitivity_score ∧
      st.sensitivity_score ≤ B) :
    (householdStep ks sens st i).safety_score = 100 ∧
    0 ≤ (householdStep ks sens st i).sensitivity_score ∧
    (householdStep ks sens st i).sensitivity_score ≤ B := by
  subst hks
  have hcas := householdCascade_no_strict sens i (pyLower i) st B h
  obtain ⟨q1, _, q3, _, _⟩ := householdPositiveRule_fields (pyLower i)
    (householdCascade [] sens i (pyLower i) st)
  simp only [householdStep]
  exact ⟨q1.trans hcas.1, by rw [q3]; exact hcas.2.1, by rw [q3]; exact hcas.2.2⟩

/-- With no strict-avoid keys, a household loop iteration on an ingredient
containing a `HOUSEHOLD_RISK` key keeps safety at 100 and drives sensitivity
to at most 90. -/
theorem householdStep_risk_hit (ks sens : List String) (st : HouseholdState)
    (i : String) (hks : ks = [])
    (hfind : (List.find? (fun q => pyIn (pyLower q.1) (pyLower i))
      HOUSEHOLD_RISK).isSome = true)
    (h : st.safety_score = 100 ∧ 0 ≤ st.sensitivity_score ∧
      st.sensitivity_score ≤ 100) :
    (householdStep ks sens st i).safety_score = 100 ∧
    0 ≤ (householdStep ks sens st i).sensitivity_score ∧
    (householdStep ks sens st i).sensitivity_score ≤ 90 := by
  subst hks
  obtain ⟨h1, h2, h3⟩ := h
  have hcas := householdCascade_risk_warn_hit sens i (pyLower i) st hfind
  obtain ⟨q1, _, q3, _, _⟩ := householdPositiveRule_fields (pyLower i)
    (householdCascade [] sens i (pyLower i) st)
  simp only [householdStep]
  refine ⟨q1.trans (hcas.1.trans h1), ?_, ?_⟩ <;> rw [q3, hcas.2] <;> omega

/-! # Claim theorems: household -/

/-- Claim C8: in the household scorer, for an ingredient that does not match
`household_strict_avoid` directly but contains a `HOUSEHOLD_RISK` key: if the
matched risk key is also a substring of some strict-avoid entry, the critical
branch fires (safety 0, cap clamped to 20, critical finding); otherwise only a
warning is applied (sensitivity −10 floored at 0, a generic-risk finding,
safety untouched).  Consequently (Scenario D) a profile with no household
strict avoids and no repeated reactions gets `safety_score = 100` and
`sensitivity_score < 100` whenever some ingredient contains a risk key. -/
theorem C8_household_risk_branch :
    (∀ (ks sens : List String) (ing : String) (st : HouseholdState)
      (p : String × List String),
      List.find? (fun k => pyMatch k (pyLower ing)) ks = none →
      List.find? (fun q => pyIn (pyLower q.1) (pyLower ing)) HOUSEHOLD_RISK
        = some p →
      ((ks.any (fun sa => pyIn (pyLower p.1) (pyLower sa)) = true →
        householdCascade ks sens ing (pyLower ing) st =
          { st with
            safety_score := 0
            final_cap := min st.final_cap 20
            from_profile_match := st.from_profile_match ++
              [⟨ing, "strict_avoid", "critical", "household"⟩] }) ∧
       (ks.any (fun sa => pyIn (pyLower p.1) (pyLower sa)) = false →
        householdCascade ks sens ing (pyLower ing) st =
          { st with
            sensitivity_score := max 0 (st.sensitivity_score - 10)
            generic_risks := st.generic_risks ++
              [⟨ing, "contains " ++ p.1, "warning", "household"⟩] }))) ∧
    (∀ (profile : UserProfile) (risks : RisksMap) (ingredients : List String),
      profile.household_strict_avoid = [] →
      profile.repeated_negative_reactions = [] →
      (∃ i ∈ ingredients, ∃ q ∈ HOUSEHOLD_RISK,
        pyIn (pyLower q.1) (pyLower i) = true) →
      (calculate_household_scores profile risks ingredients).safety_score = 100 ∧
      (calculate_household_scores profile risks ingredients).sensitivity_score
        < 100) := by
  constructor
  · intro ks sens ing st p h1 h2
    constructor <;> intro h3 <;> unfold householdCascade <;> rw [h1] <;>
      dsimp only <;> rw [h2] <;> dsimp only
    · rw [if_pos h3]
    · rw [if_neg (by simp [h3])]
  · intro profile risks ingredients hstrict hreact hrisk
    have hks : householdStrictKeys profile.household_strict_avoid = [] := by
      rw [hstrict]; rfl
    obtain ⟨i, hi, q, hq, hqc⟩ := hrisk
    have hfind : (List.find? (fun q2 => pyIn (pyLower q2.1) (pyLower i))
        HOUSEHOLD_RISK).isSome = true :=
      List.find?_isSome.mpr ⟨q, hq, hqc⟩
    obtain ⟨pre, post, rfl⟩ := List.append_of_mem hi
    have hpre := foldl_preserves
      (P := fun st : HouseholdState => st.safety_score = 100 ∧
        0 ≤ st.sensitivity_score ∧ st.sensitivity_score ≤ 100)
      pre
      (fun st j _ h => householdStep_no_strict
        (householdStrictKeys profile.household_strict_avoid)
        profile.household_sensitivities st j hks 100 h)
      ({} : HouseholdState) (by refine ⟨?_, ?_, ?_⟩ <;> decide)
    have hloop :
        (((pre ++ i :: post).foldl
          (fun st j => householdStep
            (householdStrictKeys profile.household_strict_avoid)
            profile.household_sensitivities st j)
          ({} : HouseholdState)).safety_score = 100 ∧
        0 ≤ ((pre ++ i :: post).foldl
          (fun st j => householdStep
            (householdStrictKeys profile.household_strict_avoid)
            profile.household_sensitivities st j)
          ({} : HouseholdState)).sensitivity_score ∧
        ((pre ++ i :: post).foldl
          (fun st j => householdStep
            (householdStrictKeys profile.household_strict_avoid)
            profile.household_sensitivities st j)
          ({} : HouseholdState)).sensitivity_score ≤ 90) := by
      rw [List.foldl_append, List.foldl_cons]
      refine foldl_preserves
        (P := fun st : HouseholdState => st.safety_score = 100 ∧
          0 ≤ st.sensitivity_score ∧ st.sensitivity_score ≤ 90)
        post
        (fun st j _ h => householdStep_no_strict
          (householdStrictKeys profile.household_strict_avoid)
          profile.household_sensitivities st j hks 90 h)
        _ ?_
      exact householdStep_risk_hit
        (householdStrictKeys profile.household_strict_avoid)
        profile.household_sensitivities _ i hks hfind hpre
    have hid := apply_reactions_no_match profile (pre ++ i :: post)
      ((pre ++ i :: post).foldl
        (fun st j => householdStep
          (householdStrictKeys profile.household_strict_avoid)
          profile.household_sensitivities st j)
        ({} : HouseholdState)).safety_score
      ((pre ++ i :: post).foldl
        (fun st j => householdStep
          (householdStrictKeys profile.household_strict_avoid)
          profile.household_sensitivities st j)
        ({} : HouseholdState)).final_cap
      (fun j _ e he => by rw [hreact] at he; cases he)
    exact ⟨(congrArg Prod.fst hid).trans hloop.1,
      lt_of_le_of_lt hloop.2.2 (by norm_num)⟩

/-- Claim C8 witness: the cascade characterization at a concrete state, and
Scenario D — empty profile, product `["bleach"]`. -/
theorem C8_household_risk_branch_witness :
    (householdCascade [] [] "bleach" (pyLower "bleach") {} =
      { ({} : HouseholdState) with
        sensitivity_score := max 0 ((100 : Int) - 10)
        generic_risks := [⟨"bleach", "contains " ++ "bleach", "warning",
          "household"⟩] }) ∧
    (calculate_household_scores {} [] ["bleach"]).safety_score = 100 ∧
    (calculate_household_scores {} [] ["bleach"]).sensitivity_score < 100 := by
  have h1 := (C8_household_risk_branch.1 [] [] "bleach" {} ("bleach",
    ["toxic", "bleach"]) (by decide) (by decide)).2 (by decide)
  have h2 := C8_household_risk_branch.2 {} [] ["bleach"] rfl rfl
    ⟨"bleach", by decide, ("bleach", ["toxic", "bleach"]), by decide, by decide⟩
  exact ⟨h1, h2.1, h2.2⟩

/-- Claim C10: a `household_strict_avoid` entry that is a dict without a
non-empty ingredient value (or an empty/whitespace string entry) normalizes to
the empty-string key, which matches every ingredient under bidirectional
substring containment; so for any such profile and non-empty ingredient list
every ingredient is recorded as a critical strict-avoid match and the result
has `safety_score = 0` and `final_cap ≤ 20`.  The food scorer, by contrast,
never fires its strict branch on entries normalizing to the empty key. -/
theorem C10_household_empty_entry :
    (∀ (profile : UserProfile) (risks : RisksMap) (ingredients : List String),
      (∃ item ∈ profile.household_strict_avoid, householdItemKey item = "") →
      ingredients ≠ [] →
      (calculate_household_scores profile risks ingredients).safety_score = 0 ∧
      (calculate_household_scores profile risks ingredients).final_cap ≤ 20 ∧
      (calculate_household_scores profile risks
        ingredients).from_profile_match.length = ingredients.length ∧
      (∀ f ∈ (calculate_household_scores profile risks
          ingredients).from_profile_match,
        f.ftype = "strict_avoid" ∧ f.severity = "critical")) ∧
    (∀ (p2 : UserProfile) (risks2 : RisksMap) (ing2 : List String),
      (∀ item ∈ p2.food_strict_avoid,
        foodItemKey item = none ∨ foodItemKey item = some "") →
      (calculate_food_scores p2 risks2 ing2).has_strict_allergen_explicit
        = false ∧
      (calculate_food_scores p2 risks2 ing2).has_strict_allergen_traces
        = false) := by
  constructor
  · intro profile risks ingredients hentry hne
    have hmem : "" ∈ householdStrictKeys profile.household_strict_avoid :=
      (mem_householdStrictKeys _ _).mpr hentry
    have hf : ∀ j : String,
        (List.find? (fun k => pyMatch k (pyLower j))
          (householdStrictKeys profile.household_strict_avoid)).isSome = true :=
      fun j => List.find?_isSome.mpr ⟨"", hmem, pyMatch_empty_left _⟩
    obtain ⟨hlen, hmemf, hsc⟩ := householdLoop_empty_key
      (householdStrictKeys profile.household_strict_avoid)
      profile.household_sensitivities hf ingredients ({} : HouseholdState)
    have hzero := hsc hne
    have hmemadj := apply_reactions_preserves
      (P := fun sc => sc.1 = 0 ∧ sc.2 ≤ 20)
      (fun e il sc h => reactionStep_zero_cap e il sc h)
      profile ingredients
      (ingredients.foldl
        (fun st j => householdStep
          (householdStrictKeys profile.household_strict_avoid)
          profile.household_sensitivities st j)
        ({} : HouseholdState)).safety_score
      (ingredients.foldl
        (fun st j => householdStep
          (householdStrictKeys profile.household_strict_avoid)
          profile.household_sensitivities st j)
        ({} : HouseholdState)).final_cap
      ⟨hzero.1, hzero.2⟩
    refine ⟨hmemadj.1, hmemadj.2, ?_, ?_⟩
    · have hgoal : (ingredients.foldl
          (fun st j => householdStep
            (householdStrictKeys profile.household_strict_avoid)
            profile.household_sensitivities st j)
          ({} : HouseholdState)).from_profile_match.length
          = ingredients.length := by
        rw [hlen]; simp
      exact hgoal
    · intro f hfm
      have hfm2 : f ∈ (ingredients.foldl
          (fun st j => householdStep
            (householdStrictKeys profile.household_strict_avoid)
            profile.household_sensitivities st j)
          ({} : HouseholdState)).from_profile_match := hfm
      rcases hmemf f hfm2 with habs | hcrit
      · cases habs
      · exact hcrit
  · intro p2 risks2 ing2 hall
    have hkeys : ∀ k ∈ strictAvoidKeys p2.food_strict_avoid, k = "" := by
      intro k hk
      obtain ⟨item, hitem, hkey⟩ := (mem_strictAvoidKeys _ _).mp hk
      rcases hall item hitem with hnone | hempty
      · exact absurd (hkey.symm.trans hnone) (Option.some_ne_none k)
      · exact Option.some.inj (hkey.symm.trans hempty)
    have hloop := foldl_preserves
      (P := fun st : FoodState => st.has_strict_allergen_explicit = false ∧
        st.has_strict_allergen_traces = false)
      ing2
      (fun st i _ h => by
        obtain ⟨_, _, f3, f4, _⟩ := foodStep_strict_fields
          (strictAvoidKeys p2.food_strict_avoid)
          (preferAvoidList p2.food_prefer_avoid) risks2 st i
        have hfind : List.find?
            (fun k => (k != "") && pyMatch k (pyLower i))
            (strictAvoidKeys p2.food_strict_avoid) = none :=
          List.find?_eq_none.mpr (fun k hk => by rw [hkeys k hk]; simp)
        have hcasc : (foodCascade (strictAvoidKeys p2.food_strict_avoid)
            (preferAvoidList p2.food_prefer_avoid) i (pyLower i)
            st).has_strict_allergen_explicit = st.has_strict_allergen_explicit ∧
            (foodCascade (strictAvoidKeys p2.food_strict_avoid)
              (preferAvoidList p2.food_prefer_avoid) i (pyLower i)
              st).has_strict_allergen_traces = st.has_strict_allergen_traces := by
          unfold foodCascade
          rw [hfind]
          dsimp only
          split
          · exact ⟨rfl, rfl⟩
          · split
            · exact ⟨rfl, rfl⟩
            · exact ⟨rfl, rfl⟩
        exact ⟨f3.trans (hcasc.1.trans h.1), f4.trans (hcasc.2.trans h.2)⟩)
      ({} : FoodState) ⟨rfl, rfl⟩
    exact ⟨hloop.1, hloop.2⟩

/-- Claim C10 witness: household profile with entry `{"type": "toxic"}` (no
ingredient key) and product `["water", "vinegar"]`; food profile with the
whitespace entry `"  "` and product `["water"]`. -/
theorem C10_household_empty_entry_witness :
    ((calculate_household_scores
        { household_strict_avoid := [AvoidItem.ofDict "" "toxic"] } []
        ["water", "vinegar"]).safety_score = 0 ∧
      (calculate_household_scores
        { household_strict_avoid := [AvoidItem.ofDict "" "toxic"] } []
        ["water", "vinegar"]).final_cap ≤ 20 ∧
      (calculate_household_scores
        { household_strict_avoid := [AvoidItem.ofDict "" "toxic"] } []
        ["water", "vinegar"]).from_profile_match.length = 2) ∧
    ((calculate_food_scores { food_strict_avoid := [AvoidItem.ofString "  "] }
        [] ["water"]).has_strict_allergen_explicit = false ∧
      (calculate_food_scores { food_strict_avoid := [AvoidItem.ofString "  "] }
        [] ["water"]).has_strict_allergen_traces = false) := by
  have h1 := C10_household_empty_entry.1
    { household_strict_avoid := [AvoidItem.ofDict "" "toxic"] } []
    ["water", "vinegar"] ⟨AvoidItem.ofDict "" "toxic", by decide, by decide⟩
    (by decide)
  have h2 := C10_household_empty_entry.2
    { food_strict_avoid := [AvoidItem.ofString "  "] } [] ["water"]
    (by decide)
  exact ⟨⟨h1.1, h1.2.1, h1.2.2.1⟩, h2⟩

end ForMe










